import Mathlib

/-!
Shallow embedding of the WebScreamer numerical core (src/Core/matrix.js,
src/Core/topology.js, src/unnamed/part_000 = core/solver.js).

Machine floats are modelled by exact rationals (ℚ); the claims under study
concern index conventions, control flow and exact coefficient placement,
none of which depend on rounding.  Matrix rows/columns are modelled as ℤ
(JS numbers may go negative, e.g. `2*i-1` at `i = 0`); the banded storage
arrays of matrix.js become total functions ℤ → ℚ.
-/

namespace WebScreamer

/-- Element type enum, from topology.js `EType`. -/
inductive EType where
  | RC_GROUND
  | RL_SERIES
  | TR_LINE
  | BRANCH_START
  | BRANCH_END
deriving DecidableEq

/-- Switch kind, from the `SWITCH` command parser in topology.js
(`parts[1].toUpperCase()`), restricted to the two recognized kinds
(anything else throws at parse time). -/
inductive SwitchType where
  | INSTANT
  | EXPONENTIAL
deriving DecidableEq

/-- The `switchParams` record captured at parse time
(topology.js, `SWITCH` branch): `{ rOpen, rClose, tSwitch, kDecay }`.
`kDecay` is only set for EXPONENTIAL switches. -/
structure SwitchParams where
  rOpen : ℚ
  rClose : ℚ
  tSwitch : ℚ
  kDecay : Option ℚ
deriving DecidableEq

/-- A node record as built by `CircuitCompiler.compile` (topology.js):
`{ id, type, R, L, G, C, isPhantom }`, optionally accreting `initialV`
and the switch fields. -/
structure Node where
  id : Nat
  type : EType
  R : ℚ
  L : ℚ
  G : ℚ
  C : ℚ
  isPhantom : Bool
  initialV : Option ℚ := none
  isSwitch : Bool := false
  switchType : Option SwitchType := none
  switchParams : Option SwitchParams := none
deriving DecidableEq

/-- The per-run memory of matrix.js `SimulationMemory`, parametrised by the
type `α` of a state buffer so that the buffer-swap claims can be stated for
buffers regarded as opaque objects (pointer identity).  The five band
arrays and the RHS are total functions on the row index. -/
structure SimulationMemory (α : Type) where
  N_nodes : Nat
  diag : ℤ → ℚ
  upper1 : ℤ → ℚ
  lower1 : ℤ → ℚ
  upper2 : ℤ → ℚ
  lower2 : ℤ → ℚ
  V_old : α
  I_old : α
  V_new : α
  I_new : α
  b_vector : ℤ → ℚ
  sparseElements : List (ℤ × ℤ × ℚ)

/-- `matrixSize = totalNodes * 2` (matrix.js constructor). -/
def SimulationMemory.matrixSize (m : SimulationMemory α) : Nat :=
  m.N_nodes * 2

/-- A fresh memory: all arrays zero, empty sparse list
(matrix.js constructor, `Float64Array` zero-initialisation). -/
def newMemory (totalNodes : Nat) : SimulationMemory (Nat → ℚ) where
  N_nodes := totalNodes
  diag := fun _ => 0
  upper1 := fun _ => 0
  lower1 := fun _ => 0
  upper2 := fun _ => 0
  lower2 := fun _ => 0
  V_old := fun _ => 0
  I_old := fun _ => 0
  V_new := fun _ => 0
  I_new := fun _ => 0
  b_vector := fun _ => 0
  sparseElements := []

/-- matrix.js `swapTimeSteps()`: exchange old/new V and I buffer references
via temporaries; nothing else is touched. -/
def SimulationMemory.swapTimeSteps (m : SimulationMemory α) : SimulationMemory α :=
  let tempV := m.V_old
  let m1 := { m with V_old := m.V_new, V_new := tempV }
  let tempI := m1.I_old
  { m1 with I_old := m1.I_new, I_new := tempI }

/-- matrix.js `clearMatrix()`: zero all diagonals and the RHS, empty the
sparse list; state buffers untouched. -/
def SimulationMemory.clearMatrix (m : SimulationMemory α) : SimulationMemory α :=
  { m with
    diag := fun _ => 0
    upper1 := fun _ => 0
    lower1 := fun _ => 0
    upper2 := fun _ => 0
    lower2 := fun _ => 0
    b_vector := fun _ => 0
    sparseElements := [] }

/-- solver.js `setMatrixVal(row, col, val)`: store into whichever band the
(row, col) offset selects; a write outside the five bands is silently
dropped. -/
def setMatrixVal (m : SimulationMemory α) (row col : ℤ) (val : ℚ) :
    SimulationMemory α :=
  if col = row then { m with diag := Function.update m.diag row val }
  else if col = row + 1 then { m with upper1 := Function.update m.upper1 row val }
  else if col = row - 1 then { m with lower1 := Function.update m.lower1 row val }
  else if col = row + 2 then { m with upper2 := Function.update m.upper2 row val }
  else if col = row - 2 then { m with lower2 := Function.update m.lower2 row val }
  else m

/-- The matrix entry `A[row, col]` represented by the banded storage of
matrix.js: off-band entries are identically zero. -/
def matEntry (m : SimulationMemory α) (row col : ℤ) : ℚ :=
  if col = row then m.diag row
  else if col = row + 1 then m.upper1 row
  else if col = row - 1 then m.lower1 row
  else if col = row + 2 then m.upper2 row
  else if col = row - 2 then m.lower2 row
  else 0

/-- `this.THETA = 0.55` (solver.js constructor). -/
def THETA : ℚ := 11 / 20

/-- Solver memory: state buffers are the `Float64Array`s of matrix.js,
modelled as total functions ℕ → ℚ (node index to value). -/
abbrev Mem : Type := SimulationMemory (Nat → ℚ)

/-- The physics update applied to one node at the top of `Solver.step`
(solver.js): only INSTANT switches are handled; every other node — in
particular an EXPONENTIAL switch — is returned unchanged. -/
def updateSwitchR (node : Node) (time : ℚ) : Node :=
  if node.isSwitch then
    if node.switchType = some SwitchType.INSTANT then
      match node.switchParams with
      | some p => { node with R := if time < p.tSwitch then p.rOpen else p.rClose }
      | none => node
    else node
  else node

/-- The `--- PHYSICS UPDATE ---` loop of `Solver.step`: update the switch
resistance of each node with index below `N` before building the matrix. -/
def physicsUpdate (nodes : Nat → Node) (N : Nat) (time : ℚ) : Nat → Node :=
  fun i => if i < N then updateSwitchR (nodes i) time else nodes i

/-- The body of the `--- MATRIX POPULATION ---` loop of `Solver.step` for one
node index `i` (solver.js lines 51-91): choose the row pair `(rV, rI)` by
node type, write the current (KCL) equation at `rI` and the voltage
equation at `rV`, with the terminal `I = 0` row at the last node. -/
def stepRows (dt : ℚ) (nodes : Nat → Node) (i : Nat) (m : Mem) : Mem :=
  let node := nodes i
  let N := m.N_nodes
  let rV : ℤ := if node.type = EType.RC_GROUND then 2 * i + 1 else 2 * i
  let rI : ℤ := if node.type = EType.RC_GROUND then 2 * i else 2 * i + 1
  let theta := THETA
  let one_minus_theta := 1 - theta
  let AV : ℚ := theta * node.G + node.C / dt
  let AI : ℚ := theta * node.R + node.L / dt
  let v_old := m.V_old i
  let i_old := m.I_old i
  let i_prev_old : ℚ := if 0 < i then m.I_old (i - 1) else 0
  let v_next_old : ℚ := if i < N - 1 then m.V_old (i + 1) else 0
  -- Current Equation
  let m1 := setMatrixVal m rI (2 * i) AV
  let m2 := setMatrixVal m1 rI (2 * i + 1) theta
  let m3 := if 0 < i then setMatrixVal m2 rI (2 * i - 1) (-theta) else m2
  let BV := one_minus_theta * (i_prev_old - i_old)
      + (node.C / dt - one_minus_theta * node.G) * v_old
  let m4 := { m3 with b_vector := Function.update m3.b_vector rI BV }
  -- Voltage Equation
  if i = N - 1 then
    let m5 := setMatrixVal m4 rV (2 * i + 1) 1
    { m5 with b_vector := Function.update m5.b_vector rV 0 }
  else
    let m5 := setMatrixVal m4 rV (2 * i) theta
    let m6 := setMatrixVal m5 rV (2 * i + 1) (-AI)
    let m7 := setMatrixVal m6 rV (2 * i + 2) (-theta)
    let BI := one_minus_theta * (v_next_old - v_old)
        - (node.L / dt - one_minus_theta * node.R) * i_old
    { m7 with b_vector := Function.update m7.b_vector rV BI }

/-- Matrix-population loop prefix: run `stepRows` for `i = 0, …, count-1`
(the `for (let i = 0; i < N; i++)` loop of `Solver.step`). -/
def populateUpTo (dt : ℚ) (nodes : Nat → Node) (m : Mem) : Nat → Mem
  | 0 => m
  | k + 1 => stepRows dt nodes k (populateUpTo dt nodes m k)

/-- The full per-step matrix population of `Solver.step`: clear the memory,
then assemble rows for every node `i < N`. -/
def populateMatrix (dt : ℚ) (nodes : Nat → Node) (m : Mem) : Mem :=
  populateUpTo dt nodes m.clearMatrix m.N_nodes

/-! ### Pentadiagonal elimination (solver.js `solvePentadiagonal`)

The elimination state carries the five bands and the RHS; indices are ℤ as
above.  The near-zero diagonal replacement at lines 120 and 137 of
solver.js is extracted as `floorDiag`. -/

/-- `if (Math.abs(d[i]) < 1e-25) d[i] = 1e-25;` — the value written is the
positive constant `1e-25`, whatever the sign of `d[i]`. -/
def floorDiag (x : ℚ) : ℚ :=
  if |x| < 1 / 10 ^ 25 then 1 / 10 ^ 25 else x

/-- The bands-and-RHS part of `Mem`, as mutated by `solvePentadiagonal`. -/
structure PentaState where
  d : ℤ → ℚ
  u1 : ℤ → ℚ
  l1 : ℤ → ℚ
  u2 : ℤ → ℚ
  l2 : ℤ → ℚ
  b : ℤ → ℚ

/-- One iteration of the forward-elimination loop of `solvePentadiagonal`
at index `i`: floor `d[i]`, then eliminate `l1[i+1]` (and, when
`i < n - 2`, `l2[i+2]`). -/
def elimStep (n : Nat) (s : PentaState) (i : ℤ) : PentaState :=
  let s0 : PentaState := { s with d := Function.update s.d i (floorDiag (s.d i)) }
  let s1 : PentaState :=
    if s0.l1 (i + 1) ≠ 0 then
      let f := s0.l1 (i + 1) / s0.d i
      { s0 with
        d := Function.update s0.d (i + 1) (s0.d (i + 1) - f * s0.u1 i)
        u1 := Function.update s0.u1 (i + 1) (s0.u1 (i + 1) - f * s0.u2 i)
        b := Function.update s0.b (i + 1) (s0.b (i + 1) - f * s0.b i) }
    else s0
  if i < (n : ℤ) - 2 then
    if s1.l2 (i + 2) ≠ 0 then
      let f := s1.l2 (i + 2) / s1.d i
      { s1 with
        l1 := Function.update s1.l1 (i + 2) (s1.l1 (i + 2) - f * s1.u1 i)
        d := Function.update s1.d (i + 2) (s1.d (i + 2) - f * s1.u2 i)
        b := Function.update s1.b (i + 2) (s1.b (i + 2) - f * s1.b i) }
    else s1
  else s1

/-- Forward elimination prefix: `elimStep` for `i = 0, …, count-1`
(the `for (let i = 0; i < n - 1; i++)` loop runs with `count = n - 1`). -/
def elimUpTo (n : Nat) (s : PentaState) : Nat → PentaState
  | 0 => s
  | k + 1 => elimStep n (elimUpTo n s k) k

/-- The final flooring of the last diagonal,
`if (Math.abs(d[n-1]) < 1e-25) d[n-1] = 1e-25;`. -/
def floorLast (n : Nat) (s : PentaState) : PentaState :=
  { s with d := Function.update s.d ((n : ℤ) - 1) (floorDiag (s.d ((n : ℤ) - 1))) }

/-- Back substitution of `solvePentadiagonal`: `b[n-1] /= d[n-1]`;
`b[n-2] = (b[n-2] - u1[n-2]*b[n-1]) / d[n-2]`; then the downward loop
`i = n-3, …, 0`. -/
def backSubstAt (s : PentaState) (i : ℤ) : PentaState :=
  { s with b := (Function.update s.b i
      ((s.b i - s.u1 i * s.b (i + 1) - s.u2 i * s.b (i + 2)) / s.d i)) }

/-- Runs `backSubstAt` for `i = k-1, k-2, …, 0` (downward loop). -/
def backSubstDown (s : PentaState) : Nat → PentaState
  | 0 => s
  | j + 1 => backSubstDown (backSubstAt s j) j

/-- The whole of solver.js `solvePentadiagonal` on an elimination state,
with `n = matrixSize`. -/
def solvePentadiagonal (n : Nat) (s : PentaState) : PentaState :=
  let s1 := floorLast n (elimUpTo n s (n - 1))
  let s2 := { s1 with b := (Function.update s1.b ((n : ℤ) - 1)
      (s1.b ((n : ℤ) - 1) / s1.d ((n : ℤ) - 1))) }
  let s3 := { s2 with b := (Function.update s2.b ((n : ℤ) - 2)
      ((s2.b ((n : ℤ) - 2) - s2.u1 ((n : ℤ) - 2) * s2.b ((n : ℤ) - 1))
        / s2.d ((n : ℤ) - 2))) }
  backSubstDown s3 (n - 2)

/-! ### Deck compiler (src/Core/topology.js `CircuitCompiler`)

The line lexer (whitespace splitting, `parseFloat`, case folding, comment
skipping) is abstracted: a deck is a list of already-tokenised statements
`Cmd`, one per recognized command, with optional numeric fields standing
for optional deck tokens.  Everything from the statement level down is
translated from topology.js. -/

/-- One recognized deck statement with its parsed numeric payload. -/
inductive Cmd where
  | TIMESTEP (dt : ℚ)
  | ENDTIME (t : ℚ)
  | RESOLUTIONTIME (s : ℚ)
  | TRLINERESOLUTION (s : ℚ)
  | BRANCH
  | TOPBRANCH
  | ENDBRANCH
  | RCG (R : ℚ) (C : Option ℚ)
  | RLS (R : ℚ) (L : Option ℚ)
  | SWITCH (stype : SwitchType) (rOpen rClose tSwitch : ℚ) (kDecay : Option ℚ)
  | TRL (delay Z : ℚ) (res : Option ℚ)
  | INITIAL (label : String) (val : ℚ)
  | TXT (target : String)
deriving DecidableEq

/-- Probe kind, from the `type` string of an output request. -/
inductive OutKind where
  | voltage
  | current
deriving DecidableEq

/-- An output request `{ type, nodeIndex, label }` (topology.js `TXT`). -/
structure Probe where
  kind : OutKind
  nodeIndex : Nat
  label : String
deriving DecidableEq

/-- A block record `{ type, startNode, endNode }` (topology.js). -/
structure Block where
  type : String
  startNode : Nat
  endNode : Nat
deriving DecidableEq

/-- The persistent fields of a `CircuitCompiler` object (its constructor
state).  `compile` resets only `nodes`, `outputRequests` and `blocks`;
the four timing scalars persist across calls. -/
structure CircuitCompiler where
  nodes : List Node
  outputRequests : List Probe
  dt : ℚ
  t_end : ℚ
  globalResolution : ℚ
  trLineResolution : Option ℚ
  blocks : List Block
deriving DecidableEq

/-- `new CircuitCompiler()` (topology.js constructor). -/
def initCompiler : CircuitCompiler where
  nodes := []
  outputRequests := []
  dt := 1 / 10 ^ 9
  t_end := 100 / 10 ^ 9
  globalResolution := 1 / 10 ^ 9
  trLineResolution := none
  blocks := []

/-- The object returned by `compile`. -/
structure CircuitResult where
  nodes : List Node
  outputRequests : List Probe
  dt : ℚ
  t_end : ℚ
deriving DecidableEq

/-- The full mutable state during one `compile` call: the compiler's own
fields plus the loop locals (`usedLabels`, `nodeId`, branch bookkeeping). -/
structure ParseState where
  nodes : List Node
  outputRequests : List Probe
  dt : ℚ
  t_end : ℚ
  globalResolution : ℚ
  trLineResolution : Option ℚ
  blocks : List Block
  usedLabels : List String
  nodeId : Nat
  mainBranchStarted : Bool
  pendingTopbranches : List Nat
  activeTopbranchAnchor : Option Nat
deriving DecidableEq

/-- Downward index search `for (k = hi; k >= lo; k--) if p k` used by the
TOPBRANCH anchor scan, the INITIAL lumped scan and the TXT `V` scan. -/
def searchDown (p : Nat → Bool) (lo : Nat) : Nat → Option Nat
  | 0 => if lo = 0 ∧ p 0 then some 0 else none
  | h + 1 =>
    if h + 1 < lo then none
    else if p (h + 1) then some (h + 1)
    else searchDown p lo h

/-- topology.js `combineParallel`: zero short-circuits to zero, otherwise
the usual parallel combination.  (The JS `isFinite` guards are vacuous
over ℚ, which has no infinities.) -/
def combineParallel (a b : ℚ) : ℚ :=
  if a = 0 then 0
  else if b = 0 then 0
  else 1 / (1 / a + 1 / b)

/-- The four nodes appended per TRL segment, iterated `segments` times
(the `for(let i=0; i<segments; i++)` loop of the `TRL` branch), with the
running `nodeId` threaded through. -/
def trlBuild (C_seg L_seg : ℚ) (startId : Nat) : Nat → List Node
  | 0 => []
  | k + 1 =>
    { id := startId, type := EType.RC_GROUND, R := 0, L := 0, G := 0,
      C := C_seg, isPhantom := false } ::
    { id := startId + 1, type := EType.RL_SERIES, R := 1 / 10 ^ 7, L := 0, G := 0,
      C := 0, isPhantom := true } ::
    { id := startId + 2, type := EType.RC_GROUND, R := 0, L := 0, G := 1 / 10 ^ 9,
      C := 0, isPhantom := true } ::
    { id := startId + 3, type := EType.RL_SERIES, R := 0, L := L_seg, G := 0,
      C := 0, isPhantom := false } ::
    trlBuild C_seg L_seg (startId + 4) k

/-- The `while (usedLabels.has(uniqueLabel))` suffixing loop of the `TXT`
branch; `fuel` bounds the iteration count (the set is finite, so the fuel
`used.length + 1` supplied by `uniqueLabel` is never exhausted). -/
def uniqueLabelLoop (target : String) (used : List String) : Nat → Nat → String
  | counter, 0 => target ++ "_" ++ toString counter
  | counter, fuel + 1 =>
    let cand := target ++ "_" ++ toString counter
    if cand ∈ used then uniqueLabelLoop target used (counter + 1) fuel else cand

/-- Label deduplication of the `TXT` branch: keep `target` if unused, else
append `_1`, `_2`, … until free. -/
def uniqueLabel (target : String) (used : List String) : String :=
  if target ∈ used then uniqueLabelLoop target used 1 (used.length + 1)
  else target

/-- The phantom propagation loop of the lumped `INITIAL` branch:
`while (k < nodes.length && nodes[k].isPhantom) nodes[k].initialV = val`.
`fuel` bounds the walk (supplied as `nodes.length`). -/
def propagatePhantoms (val : ℚ) : List Node → Nat → Nat → List Node
  | nodes, _, 0 => nodes
  | nodes, k, fuel + 1 =>
    match nodes[k]? with
    | some n =>
      if n.isPhantom then
        propagatePhantoms val (nodes.set k { n with initialV := some val }) (k + 1) fuel
      else nodes
    | none => nodes

/-- The `INITIAL` statement applied to the most recent block
(topology.js): TRL blocks seed every still-unset node in range; lumped
blocks seed the last real RC_GROUND of the block and its phantom tail. -/
def applyInitial (s : ParseState) (val : ℚ) : ParseState :=
  match s.blocks.getLast? with
  | none => s
  | some blk =>
    if blk.type = "TRL" then
      let nodes' := s.nodes.mapIdx fun i n =>
        if blk.startNode ≤ i ∧ i ≤ blk.endNode ∧ n.initialV = none then
          { n with initialV := some val }
        else n
      { s with nodes := nodes' }
    else
      let p : Nat → Bool := fun k =>
        match s.nodes[k]? with
        | some n => n.type = EType.RC_GROUND ∧ n.isPhantom = false
        | none => false
      match searchDown p blk.startNode blk.endNode with
      | none => s
      | some i =>
        match s.nodes[i]? with
        | none => s
        | some n =>
          let nodes1 := s.nodes.set i { n with initialV := some val }
          { s with nodes := propagatePhantoms val nodes1 (i + 1) nodes1.length }

/-- The `TXT` statement (topology.js): choose the probe node from the most
recent block by the label's first letter, deduplicate the label, and push
an output request. -/
def applyTXT (s : ParseState) (target : String) : ParseState :=
  let defaultIndex := s.nodes.length - 1
  let probeIndex :=
    match s.blocks.getLast? with
    | none => defaultIndex
    | some blk =>
      if target.startsWith "I" then
        if 0 < blk.startNode then blk.startNode - 1 else 0
      else if target.startsWith "V" then
        let p : Nat → Bool := fun k =>
          match s.nodes[k]? with
          | some n => n.isPhantom = false
          | none => false
        (searchDown p blk.startNode blk.endNode).getD defaultIndex
      else defaultIndex
  let lbl := uniqueLabel target s.usedLabels
  { s with
    usedLabels := s.usedLabels ++ [lbl]
    outputRequests := s.outputRequests ++
      [{ kind := if target.startsWith "V" then OutKind.voltage else OutKind.current,
         nodeIndex := max 0 probeIndex, label := lbl }] }

/-- Process one statement: the body of the `for (let line of lines)` loop
of `CircuitCompiler.compile`.  `Except` models the `throw new Error`
paths.  The merge cases for `RCG`/`RLS` under an active Topbranch anchor
reproduce the "limited approximation" block of topology.js, which folds
the child branch's first element in parallel into the anchor node and
skips normal node creation. -/
def processCmd (s : ParseState) (cmd : Cmd) : Except String ParseState :=
  match cmd with
  | .BRANCH =>
    if s.mainBranchStarted = false then
      .ok { s with mainBranchStarted := true }
    else
      match s.pendingTopbranches with
      | a :: rest =>
        .ok { s with activeTopbranchAnchor := some a, pendingTopbranches := rest }
      | [] => .ok s
  | .TOPBRANCH =>
    let p : Nat → Bool := fun k =>
      match s.nodes[k]? with
      | some n => n.type = EType.RL_SERIES ∧ n.isPhantom = false
      | none => false
    match searchDown p 0 (s.nodes.length - 1) with
    | none => .error "Topbranch requires a previous series element to attach to."
    | some anchorIndex =>
      .ok { s with pendingTopbranches := s.pendingTopbranches ++ [anchorIndex] }
  | .ENDBRANCH => .ok s
  | .TIMESTEP v => .ok { s with dt := v }
  | .ENDTIME v => .ok { s with t_end := v }
  | .RESOLUTIONTIME v => .ok { s with globalResolution := v }
  | .TRLINERESOLUTION v => .ok { s with trLineResolution := some v }
  | .RCG R Copt =>
    match s.activeTopbranchAnchor with
    | some a =>
      match s.nodes[a]? with
      | some anchorNode =>
        let branchC := Copt.getD 0
        let anchorNode' := { anchorNode with
          R := combineParallel anchorNode.R R
          L := combineParallel anchorNode.L 0
          C := anchorNode.C + branchC }
        .ok { s with nodes := s.nodes.set a anchorNode', activeTopbranchAnchor := none }
      | none => .ok { s with activeTopbranchAnchor := none }
    | none =>
      let C := Copt.getD 0
      let G : ℚ := if R = 0 then 10 ^ 9 else 1 / R
      let n1 : Node :=
        { id := s.nodeId, type := EType.RC_GROUND,
          R := 0, L := 0, G := G, C := C, isPhantom := false }
      let n2 : Node :=
        { id := s.nodeId + 1, type := EType.RL_SERIES,
          R := 1 / 10 ^ 7, L := 1 / 10 ^ 11, G := 0, C := 0, isPhantom := true }
      .ok { s with
        nodes := s.nodes ++ [n1, n2]
        nodeId := s.nodeId + 2
        blocks := s.blocks ++
          [{ type := "RCG", startNode := s.nodeId, endNode := s.nodeId + 1 }] }
  | .RLS R Lopt =>
    match s.activeTopbranchAnchor with
    | some a =>
      match s.nodes[a]? with
      | some anchorNode =>
        let branchL := Lopt.getD 0
        let anchorNode' := { anchorNode with
          R := combineParallel anchorNode.R R
          L := combineParallel anchorNode.L branchL }
        .ok { s with nodes := s.nodes.set a anchorNode', activeTopbranchAnchor := none }
      | none => .ok { s with activeTopbranchAnchor := none }
    | none =>
      let L := Lopt.getD 0
      let n1 : Node :=
        { id := s.nodeId, type := EType.RC_GROUND,
          R := 0, L := 0, G := 0, C := 0, isPhantom := true }
      let n2 : Node :=
        { id := s.nodeId + 1, type := EType.RL_SERIES,
          R := R, L := L, G := 0, C := 0, isPhantom := false }
      .ok { s with
        nodes := s.nodes ++ [n1, n2]
        nodeId := s.nodeId + 2
        blocks := s.blocks ++
          [{ type := "RLS", startNode := s.nodeId, endNode := s.nodeId + 1 }] }
  | .SWITCH stype rOpen rClose tSwitch kDecay =>
    let initialR := if stype = SwitchType.EXPONENTIAL then rOpen + rClose else rOpen
    let n1 : Node :=
      { id := s.nodeId, type := EType.RC_GROUND,
        R := 0, L := 0, G := 0, C := 0, isPhantom := true }
    let sp : SwitchParams :=
      { rOpen := rOpen, rClose := rClose, tSwitch := tSwitch, kDecay := kDecay }
    let n2 : Node :=
      { id := s.nodeId + 1, type := EType.RL_SERIES,
        R := initialR, L := 1 / 10 ^ 9, G := 0, C := 0, isPhantom := false,
        isSwitch := true, switchType := some stype, switchParams := some sp }
    .ok { s with
      nodes := s.nodes ++ [n1, n2]
      nodeId := s.nodeId + 2
      blocks := s.blocks ++
        [{ type := "SWITCH", startNode := s.nodeId, endNode := s.nodeId + 1 }] }
  | .TRL delay Z resOpt =>
    let resolution : ℚ :=
      match resOpt with
      | some r => r
      | none =>
        match s.trLineResolution with
        | some r => r
        | none => s.globalResolution / 2
    let segments : Nat := (max 1 (round (delay / resolution))).toNat
    let L_seg := (Z * delay) / (segments : ℚ)
    let C_seg := (delay / Z) / (segments : ℚ)
    .ok { s with
      nodes := s.nodes ++ trlBuild C_seg L_seg s.nodeId segments
      nodeId := s.nodeId + 4 * segments
      blocks := s.blocks ++
        [{ type := "TRL", startNode := s.nodeId,
           endNode := s.nodeId + 4 * segments - 1 }] }
  | .INITIAL _ val => .ok (applyInitial s val)
  | .TXT target => .ok (applyTXT s target)

/-- Process a whole deck statement by statement, stopping at the first
thrown error. -/
def processAll (s : ParseState) : List Cmd → Except String ParseState
  | [] => .ok s
  | c :: cs =>
    match processCmd s c with
    | .ok s' => processAll s' cs
    | .error e => .error e

/-- `CircuitCompiler.compile(scriptText)`: reset `nodes`, `outputRequests`
and `blocks` (the timing scalars are NOT reset), run the statement loop,
and return the updated compiler object together with the result record. -/
def compile (c : CircuitCompiler) (script : List Cmd) :
    Except String (CircuitCompiler × CircuitResult) :=
  let s0 : ParseState := {
    nodes := []
    outputRequests := []
    dt := c.dt
    t_end := c.t_end
    globalResolution := c.globalResolution
    trLineResolution := c.trLineResolution
    blocks := []
    usedLabels := []
    nodeId := 0
    mainBranchStarted := false
    pendingTopbranches := []
    activeTopbranchAnchor := none }
  match processAll s0 script with
  | .error e => .error e
  | .ok s' =>
    .ok ({ nodes := s'.nodes, outputRequests := s'.outputRequests,
           dt := s'.dt, t_end := s'.t_end,
           globalResolution := s'.globalResolution,
           trLineResolution := s'.trLineResolution, blocks := s'.blocks },
         { nodes := s'.nodes, outputRequests := s'.outputRequests,
           dt := s'.dt, t_end := s'.t_end })


/-- A concrete anchor node used by witness theorems: a non-phantom
RL_SERIES with `R = 2`, `L = 4`. -/
def anchorNodeW : Node :=
  { id := 0, type := EType.RL_SERIES, R := 2, L := 4, G := 0, C := 0,
    isPhantom := false }

/-- A concrete parse state used by witness theorems: one node, with an
active Topbranch anchor pointing at it. -/
def stateW : ParseState :=
  { nodes := [anchorNodeW], outputRequests := [], dt := 1, t_end := 1,
    globalResolution := 1, trLineResolution := none, blocks := [],
    usedLabels := [], nodeId := 1, mainBranchStarted := true,
    pendingTopbranches := [], activeTopbranchAnchor := some 0 }

/-- Concrete INSTANT-switch parameters for witness theorems. -/
def switchParamsW : SwitchParams :=
  { rOpen := 10, rClose := 1, tSwitch := 3, kDecay := none }

/-- A concrete INSTANT-switch node for witness theorems. -/
def instSwitchNodeW : Node :=
  { id := 0, type := EType.RL_SERIES, R := 10, L := 1 / 10 ^ 9, G := 0, C := 0,
    isPhantom := false, isSwitch := true,
    switchType := some SwitchType.INSTANT, switchParams := some switchParamsW }

/-- A concrete EXPONENTIAL-switch node for witness theorems. -/
def expSwitchNodeW : Node :=
  { id := 0, type := EType.RL_SERIES, R := 2, L := 1 / 10 ^ 9, G := 0, C := 0,
    isPhantom := false, isSwitch := true,
    switchType := some SwitchType.EXPONENTIAL,
    switchParams := some { rOpen := 1, rClose := 1, tSwitch := 0, kDecay := some 1 } }

/-- Concrete nodes/state for the TXT-probe witness: one RCG block (a real
RC_GROUND followed by its phantom), with label "V1" already used. -/
def txtNodeRealW : Node :=
  { id := 0, type := EType.RC_GROUND, R := 0, L := 0, G := 1, C := 0,
    isPhantom := false }

/-- The phantom partner of `txtNodeRealW`. -/
def txtNodePhantomW : Node :=
  { id := 1, type := EType.RL_SERIES, R := 1 / 10 ^ 7, L := 1 / 10 ^ 11,
    G := 0, C := 0, isPhantom := true }

/-- Parse state for the TXT-probe witness. -/
def txtStateW : ParseState :=
  { nodes := [txtNodeRealW, txtNodePhantomW], outputRequests := [],
    dt := 1, t_end := 1, globalResolution := 1, trLineResolution := none,
    blocks := [{ type := "RCG", startNode := 0, endNode := 1 }],
    usedLabels := ["V1"], nodeId := 2, mainBranchStarted := true,
    pendingTopbranches := [], activeTopbranchAnchor := none }

/-! ## Helper lemmas -/

/-- `searchDown` soundness: a hit satisfies the predicate and lies in
`[lo, hi]`. -/
theorem searchDown_sound (p : Nat → Bool) (lo : Nat) :
    ∀ hi k, searchDown p lo hi = some k → p k = true ∧ lo ≤ k ∧ k ≤ hi := by
  intro hi
  induction hi with
  | zero =>
    intro k h
    rw [searchDown] at h
    split at h
    · rename_i hc
      obtain ⟨h1, h2⟩ := hc
      cases h
      exact ⟨h2, le_of_eq h1, le_refl 0⟩
    · exact absurd h (by simp)
  | succ n ih =>
    intro k h
    rw [searchDown] at h
    split at h
    · exact absurd h (by simp)
    · split at h
      · rename_i hp
        cases h
        exact ⟨hp, by omega, le_refl _⟩
      · obtain ⟨h1, h2, h3⟩ := ih k h
        exact ⟨h1, h2, by omega⟩

/-- `searchDown` completeness: if `j` in `[lo, hi]` satisfies `p` and every
index strictly above it (up to `hi`) does not, the search finds `j`. -/
theorem searchDown_finds (p : Nat → Bool) (lo j : Nat) (hpj : p j = true) :
    ∀ hi, lo ≤ j → j ≤ hi → (∀ j', j < j' → j' ≤ hi → p j' = false) →
      searchDown p lo hi = some j := by
  intro hi
  induction hi with
  | zero =>
    intro hlo hhi _
    have hj : j = 0 := by omega
    subst hj
    rw [searchDown, if_pos ⟨by omega, hpj⟩]
  | succ n ih =>
    intro hlo hhi habove
    rw [searchDown]
    rcases Nat.lt_or_ge j (n + 1) with hlt | hge
    · have hfalse : p (n + 1) = false := habove (n + 1) hlt (le_refl _)
      rw [if_neg (by omega), if_neg (by simp [hfalse])]
      exact ih hlo (by omega) (fun j' h1 h2 => habove j' h1 (by omega))
    · have hj : j = n + 1 := by omega
      subst hj
      rw [if_neg (by omega), if_pos hpj]

/-- Processing a deck with an `ENDBRANCH` spliced in gives the same parse
state as the deck without it. -/
theorem processAll_endbranch_splice (xs ys : List Cmd) :
    ∀ s : ParseState,
      processAll s (xs ++ Cmd.ENDBRANCH :: ys) = processAll s (xs ++ ys) := by
  induction xs with
  | nil => intro s; rfl
  | cons c cs ih =>
    intro s
    simp only [List.cons_append, processAll]
    cases processCmd s c with
    | ok s' => exact ih s'
    | error e => rfl

/-! ## Claim theorems -/

/-- C9: matrix.js `swapTimeSteps` exchanges the `(V_old, I_old)` and
`(V_new, I_new)` buffers by moving the buffer references themselves (the
buffer type `α` is opaque, so the operation cannot copy element data —
the very objects reappear in the other field), and it is involutive: two
consecutive swaps restore the original pointer identity of all four state
buffers.  The band arrays and everything else are untouched. -/
theorem swap_buffers_involutive_move (α : Type) (m : SimulationMemory α) :
    m.swapTimeSteps.swapTimeSteps = m ∧
    m.swapTimeSteps.V_old = m.V_new ∧ m.swapTimeSteps.V_new = m.V_old ∧
    m.swapTimeSteps.I_old = m.I_new ∧ m.swapTimeSteps.I_new = m.I_old ∧
    m.swapTimeSteps.diag = m.diag ∧ m.swapTimeSteps.upper1 = m.upper1 ∧
    m.swapTimeSteps.lower1 = m.lower1 ∧ m.swapTimeSteps.upper2 = m.upper2 ∧
    m.swapTimeSteps.lower2 = m.lower2 ∧
    m.swapTimeSteps.b_vector = m.b_vector ∧
    m.swapTimeSteps.N_nodes = m.N_nodes ∧
    m.swapTimeSteps.sparseElements = m.sparseElements :=
  ⟨rfl, rfl, rfl, rfl, rfl, rfl, rfl, rfl, rfl, rfl, rfl, rfl, rfl⟩

/-- C10: `compile` resets only `nodes`, `outputRequests` and `blocks`; the
timing scalars `dt`, `t_end`, `globalResolution`, `trLineResolution`
persist from the previous call.  Hence compiling a deck on a used compiler
can give different `dt`/`t_end` than compiling it on a fresh compiler:
witnessed by `d1` setting `TIME-STEP`/`END-TIME` and `d2` omitting them. -/
theorem compile_timing_state_leak :
    (∀ c : CircuitCompiler,
      compile c [] = Except.ok
        ({ c with nodes := [], outputRequests := [], blocks := [] },
         { nodes := [], outputRequests := [], dt := c.dt, t_end := c.t_end })) ∧
    ∃ (d1 d2 : List Cmd) (c1 : CircuitCompiler) (r1 : CircuitResult)
      (c2 : CircuitCompiler) (r2 : CircuitResult)
      (c3 : CircuitCompiler) (r3 : CircuitResult),
      compile initCompiler d1 = Except.ok (c1, r1) ∧
      compile c1 d2 = Except.ok (c2, r2) ∧
      compile initCompiler d2 = Except.ok (c3, r3) ∧
      r2.dt ≠ r3.dt ∧ r2.t_end ≠ r3.t_end := by
  refine ⟨fun c => rfl,
    [Cmd.TIMESTEP 2, Cmd.ENDTIME 3], [], _, _, _, _, _, _, rfl, rfl, rfl, ?_, ?_⟩
  · show (2 : ℚ) ≠ 1 / 10 ^ 9
    norm_num
  · show (3 : ℚ) ≠ 100 / 10 ^ 9
    norm_num

/-- C2: the claim describes `ENDBRANCH` as recording an END attachment
(with an error check and per-step coupling edits).  In the code,
`ENDBRANCH` matches no command handler at all: processing it leaves the
parse state untouched, so a deck with `ENDBRANCH` compiles exactly like
the deck without it — no attachment, no error, no matrix edit ever. -/
theorem endbranch_has_no_effect :
    (∀ s : ParseState, processCmd s Cmd.ENDBRANCH = Except.ok s) ∧
    (∀ (c : CircuitCompiler) (xs ys : List Cmd),
      compile c (xs ++ Cmd.ENDBRANCH :: ys) = compile c (xs ++ ys)) := by
  refine ⟨fun s => rfl, fun c xs ys => ?_⟩
  simp only [compile, processAll_endbranch_splice]

/-- C3: what `TOPBRANCH` actually does.  It records a single anchor index —
the last non-phantom RL_SERIES node of the whole node list — not the pair
of the previous block's last two physical nodes, and no attachment object
exists; when the child branch then starts, its first `RLS`/`RCG` element
is folded in parallel into that anchor node (`combineParallel`) with no
node created, no constraint row and no per-step sparse coupling. -/
theorem topbranch_merges_parallel :
    (∀ s s' : ParseState, processCmd s Cmd.TOPBRANCH = Except.ok s' →
      ∃ k, s' = { s with pendingTopbranches := s.pendingTopbranches ++ [k] } ∧
        ∃ n : Node, s.nodes[k]? = some n ∧
          n.type = EType.RL_SERIES ∧ n.isPhantom = false) ∧
    (∀ (s : ParseState) (a : Nat) (anchorNode : Node) (R : ℚ) (Lopt : Option ℚ),
      s.activeTopbranchAnchor = some a → s.nodes[a]? = some anchorNode →
      processCmd s (Cmd.RLS R Lopt) = Except.ok
        { s with
          nodes := s.nodes.set a { anchorNode with
            R := combineParallel anchorNode.R R,
            L := combineParallel anchorNode.L (Lopt.getD 0) },
          activeTopbranchAnchor := none }) ∧
    (∀ (s : ParseState) (a : Nat) (anchorNode : Node) (R : ℚ) (Copt : Option ℚ),
      s.activeTopbranchAnchor = some a → s.nodes[a]? = some anchorNode →
      processCmd s (Cmd.RCG R Copt) = Except.ok
        { s with
          nodes := s.nodes.set a { anchorNode with
            R := combineParallel anchorNode.R R,
            L := combineParallel anchorNode.L 0,
            C := anchorNode.C + Copt.getD 0 },
          activeTopbranchAnchor := none }) := by
  refine ⟨?_, ?_, ?_⟩
  · intro s s' h
    rw [processCmd] at h
    rcases hs : searchDown (fun k =>
        match s.nodes[k]? with
        | some n => n.type = EType.RL_SERIES ∧ n.isPhantom = false
        | none => false) 0 (s.nodes.length - 1) with _ | k
    · rw [hs] at h; exact absurd h (by simp)
    · rw [hs] at h
      cases h
      refine ⟨k, rfl, ?_⟩
      obtain ⟨hp, -, -⟩ := searchDown_sound _ _ _ _ hs
      rcases hn : s.nodes[k]? with _ | n
      · rw [hn] at hp; simp at hp
      · rw [hn] at hp
        simp only [Bool.decide_and, Bool.and_eq_true, decide_eq_true_eq] at hp
        exact ⟨n, rfl, hp.1, hp.2⟩
  · intro s a anchorNode R Lopt ha hn
    simp only [processCmd, ha, hn]
  · intro s a anchorNode R Copt ha hn
    simp only [processCmd, ha, hn]

/-- Witness for the C3 theorem at a concrete state: an active anchor node
`(RL_SERIES, R = 2, L = 4)` absorbs `RLS 6 12` in parallel. -/
theorem topbranch_merges_parallel_witness :
    processCmd stateW (Cmd.RLS 6 (some 12)) = Except.ok
      { stateW with
        nodes := stateW.nodes.set 0 { anchorNodeW with
          R := combineParallel anchorNodeW.R 6,
          L := combineParallel anchorNodeW.L ((some (12 : ℚ)).getD 0) },
        activeTopbranchAnchor := none } :=
  topbranch_merges_parallel.2.1 stateW 0 anchorNodeW 6 (some 12) rfl rfl

/-- C5 counterexample: the elimination's diagonal flooring is NOT
sign-preserving.  At `d = -1e-26` (within the flooring window and
negative) the code writes `+1e-25`, not `sign(d)·1e-25 = -1e-25`. -/
theorem diag_floor_sign_counterexample :
    |(-(1 / 10 ^ 26) : ℚ)| < 1 / 10 ^ 25 ∧
    (-(1 / 10 ^ 26) : ℚ) < 0 ∧
    floorDiag (-(1 / 10 ^ 26)) = 1 / 10 ^ 25 ∧
    (1 / 10 ^ 25 : ℚ) ≠ -(1 / 10 ^ 25) := by
  have habs : |(-(1 / 10 ^ 26) : ℚ)| = 1 / 10 ^ 26 := by
    rw [abs_neg, abs_of_pos]
    norm_num
  refine ⟨?_, by norm_num, ?_, by norm_num⟩
  · rw [habs]; norm_num
  · rw [floorDiag, if_pos (by rw [habs]; norm_num)]

/-- C5 (amended): every flooring site of `solvePentadiagonal` — each loop
index and the final index `n-1` — replaces a diagonal of magnitude below
`1e-25` by the positive constant `+1e-25`, regardless of the sign of the
original value; diagonals at or above the threshold are untouched. -/
theorem diag_floor_positive_constant :
    (∀ x : ℚ, |x| < 1 / 10 ^ 25 → floorDiag x = 1 / 10 ^ 25) ∧
    (∀ x : ℚ, ¬ |x| < 1 / 10 ^ 25 → floorDiag x = x) ∧
    (∀ (n : Nat) (s : PentaState) (i : ℤ),
      (elimStep n s i).d i = floorDiag (s.d i)) ∧
    (∀ (n : Nat) (s : PentaState),
      (floorLast n s).d ((n : ℤ) - 1) = floorDiag (s.d ((n : ℤ) - 1))) := by
  refine ⟨fun x hx => by rw [floorDiag, if_pos hx],
          fun x hx => by rw [floorDiag, if_neg hx], ?_, ?_⟩
  · intro n s i
    have h1 : i ≠ i + 1 := by omega
    have h2 : i ≠ i + 2 := by omega
    simp only [elimStep]
    split_ifs <;>
      simp [Function.update_noteq h1, Function.update_noteq h2,
        Function.update_same]
  · intro n s
    simp [floorLast, Function.update_same]

/-- Witness for the C5 amended theorem: flooring at `0` and at a negative
in-window value both give `+1e-25`; an out-of-window value is untouched. -/
theorem diag_floor_positive_constant_witness :
    floorDiag 0 = 1 / 10 ^ 25 ∧ floorDiag (-(1 / 10 ^ 26)) = 1 / 10 ^ 25 ∧
    floorDiag 7 = 7 := by
  have habs : |(-(1 / 10 ^ 26) : ℚ)| = 1 / 10 ^ 26 := by
    rw [abs_neg, abs_of_pos]
    norm_num
  refine ⟨diag_floor_positive_constant.1 0 (by norm_num),
    diag_floor_positive_constant.1 _ (by rw [habs]; norm_num),
    diag_floor_positive_constant.2.1 7 (by rw [abs_of_pos] <;> norm_num)⟩


/-- `setMatrixVal` never touches the sparse-element list. -/
theorem setMatrixVal_sparse (m : Mem) (row col : ℤ) (v : ℚ) :
    (setMatrixVal m row col v).sparseElements = m.sparseElements := by
  rw [setMatrixVal]
  split_ifs <;> rfl

/-- `stepRows` never touches the sparse-element list. -/
theorem stepRows_sparse (dt : ℚ) (nodes : Nat → Node) (j : Nat) (m : Mem) :
    (stepRows dt nodes j m).sparseElements = m.sparseElements := by
  simp only [stepRows]
  split_ifs <;> simp [setMatrixVal_sparse]

/-- The population loop never touches the sparse-element list. -/
theorem populateUpTo_sparse (dt : ℚ) (nodes : Nat → Node) (m : Mem) :
    ∀ K, (populateUpTo dt nodes m K).sparseElements = m.sparseElements := by
  intro K
  induction K with
  | zero => rfl
  | succ k ih => rw [populateUpTo, stepRows_sparse, ih]

/-- C4 (amended): the physics update at the top of `Solver.step` handles
only INSTANT switches, setting `R` from the parse-time tuple exactly as
claimed; an EXPONENTIAL switch (and any non-switch node) is left entirely
unchanged, its `R` remaining the parse-time initial value — the compiler
stores `rOpen + rClose` for EXPONENTIAL and `rOpen` for INSTANT, together
with the captured `switchParams` tuple. -/
theorem switch_update_instant_only :
    (∀ (node : Node) (t : ℚ) (p : SwitchParams),
      node.isSwitch = true → node.switchType = some SwitchType.INSTANT →
      node.switchParams = some p →
      updateSwitchR node t =
        { node with R := if t < p.tSwitch then p.rOpen else p.rClose }) ∧
    (∀ (node : Node) (t : ℚ),
      node.switchType = some SwitchType.EXPONENTIAL →
      updateSwitchR node t = node) ∧
    (∀ (node : Node) (t : ℚ), node.isSwitch = false →
      updateSwitchR node t = node) ∧
    (∀ (s : ParseState) (stype : SwitchType) (rO rC tS : ℚ) (kD : Option ℚ),
      ∃ s', processCmd s (Cmd.SWITCH stype rO rC tS kD) = Except.ok s' ∧
        s'.nodes = s.nodes ++
          [{ id := s.nodeId, type := EType.RC_GROUND, R := 0, L := 0, G := 0,
             C := 0, isPhantom := true },
           { id := s.nodeId + 1, type := EType.RL_SERIES,
             R := if stype = SwitchType.EXPONENTIAL then rO + rC else rO,
             L := 1 / 10 ^ 9, G := 0, C := 0, isPhantom := false,
             isSwitch := true, switchType := some stype,
             switchParams := some ⟨rO, rC, tS, kD⟩ }]) := by
  refine ⟨?_, ?_, ?_, ?_⟩
  · intro node t p hs hty hp
    rw [updateSwitchR, if_pos hs, if_pos (by rw [hty]), hp]
  · intro node t hty
    rw [updateSwitchR]
    split_ifs with h1 h2
    · rw [hty] at h2; exact absurd (Option.some.inj h2) (by intro h; cases h)
    · rfl
    · rfl
  · intro node t hs
    rw [updateSwitchR, if_neg (by rw [hs]; exact Bool.false_ne_true)]
  · intro s stype rO rC tS kD
    exact ⟨_, rfl, rfl⟩

/-- Witness for the C4 amended theorem: an INSTANT switch updates from its
captured tuple; an EXPONENTIAL switch is untouched. -/
theorem switch_update_instant_only_witness :
    updateSwitchR instSwitchNodeW 5 =
      { instSwitchNodeW with
        R := if (5 : ℚ) < switchParamsW.tSwitch then switchParamsW.rOpen
             else switchParamsW.rClose } ∧
    updateSwitchR expSwitchNodeW 5 = expSwitchNodeW :=
  ⟨switch_update_instant_only.1 instSwitchNodeW 5 switchParamsW rfl rfl rfl,
   switch_update_instant_only.2.1 expSwitchNodeW 5 rfl⟩

/-- C4 counterexample: compile a `SWITCH EXPONENTIAL 1 1 1 0` statement
(`rOpen = 1, rClose = 1, k = 1, t_switch = 0`); the claim's formula demands
`R = R_close + R_open·exp(−k·max(0, t−t_switch)) = 1 + exp(−1) < 2` at
`t = 1`, but the physics update leaves `R` at the parse-time value `2`. -/
theorem switch_exponential_counterexample :
    ∃ (c : CircuitCompiler) (r : CircuitResult) (node : Node),
      compile initCompiler [Cmd.SWITCH SwitchType.EXPONENTIAL 1 1 0 (some 1)] =
        Except.ok (c, r) ∧
      r.nodes[1]? = some node ∧
      node.switchType = some SwitchType.EXPONENTIAL ∧
      node.switchParams = some ⟨1, 1, 0, some 1⟩ ∧
      (updateSwitchR node 1).R = 2 ∧
      (((updateSwitchR node 1).R : ℝ) ≠
        1 + Real.exp (-(1 * max 0 ((1 : ℝ) - 0)))) := by
  refine ⟨_, _, _, rfl, rfl, rfl, rfl, ?_, ?_⟩
  · show (1 + 1 : ℚ) = 2
    norm_num
  · show ((1 + 1 : ℚ) : ℝ) ≠ 1 + Real.exp (-(1 * max 0 ((1 : ℝ) - 0)))
    have h1 : (-(1 * max 0 ((1 : ℝ) - 0))) = -1 := by norm_num
    rw [h1]
    have h2 : Real.exp (-1) < 1 := Real.exp_lt_one_iff.mpr (by norm_num)
    have h3 : (0 : ℝ) < Real.exp (-1) := Real.exp_pos _
    push_cast
    intro he
    linarith

/-- C7: the solver's coefficient storage is the five-band representation of
matrix.js: a `setMatrixVal` targeting any position outside the band
offsets `{-2, -1, 0, +1, +2}` is dropped, every representable nonzero
entry lies within those offsets, and the per-step population never adds a
sparse (off-band) element. -/
theorem pentadiagonal_band_only :
    (∀ (m : Mem) (row col : ℤ) (v : ℚ),
      2 < |col - row| → setMatrixVal m row col v = m) ∧
    (∀ (m : Mem) (row col : ℤ), matEntry m row col ≠ 0 → |col - row| ≤ 2) ∧
    (∀ (dt : ℚ) (nodes : Nat → Node) (m : Mem),
      (populateMatrix dt nodes m).sparseElements = []) := by
  refine ⟨?_, ?_, ?_⟩
  · intro m row col v h
    rcases lt_abs.mp h with h' | h' <;>
      rw [setMatrixVal, if_neg (by omega), if_neg (by omega), if_neg (by omega),
        if_neg (by omega), if_neg (by omega)]
  · intro m row col h
    by_contra hc
    push_neg at hc
    rcases lt_abs.mp hc with h' | h' <;>
      rw [matEntry, if_neg (by omega), if_neg (by omega), if_neg (by omega),
        if_neg (by omega), if_neg (by omega)] at h <;>
      exact h rfl
  · intro dt nodes m
    rw [populateMatrix, populateUpTo_sparse]
    rfl

/-- Witness for the C7 theorem: a write at offset `+5` is dropped; a main
diagonal entry set to `3` is nonzero and lies at offset `0`. -/
theorem pentadiagonal_band_only_witness :
    setMatrixVal (newMemory 1) 0 5 3 = newMemory 1 ∧
    |(0 : ℤ) - 0| ≤ 2 ∧
    (populateMatrix 1 (fun _ => anchorNodeW) (newMemory 1)).sparseElements = [] := by
  refine ⟨pentadiagonal_band_only.1 (newMemory 1) 0 5 3 (by norm_num),
    pentadiagonal_band_only.2.1 (setMatrixVal (newMemory 1) 0 0 3) 0 0 ?_,
    pentadiagonal_band_only.2.2 1 (fun _ => anchorNodeW) (newMemory 1)⟩
  simp [matEntry, setMatrixVal, newMemory]


/-- Indexing an appended list at `l.length + i` reads the second part. -/
theorem getElem?_append_offset {α : Type} (l T : List α) (i : Nat) :
    (l ++ T)[l.length + i]? = T[i]? := by
  rw [List.getElem?_append_right (by omega)]
  congr 1
  omega

/-- The TRL segment loop emits `4 * segments` nodes. -/
theorem trlBuild_length (cs ls : ℚ) :
    ∀ (k startId : Nat), (trlBuild cs ls startId k).length = 4 * k := by
  intro k
  induction k with
  | zero => intro _; rfl
  | succ n ih =>
    intro startId
    simp only [trlBuild, List.length_cons, ih]
    ring

/-- The four nodes of segment `j` emitted by the TRL loop, with their ids
and element values. -/
theorem trlBuild_segment (cs ls : ℚ) :
    ∀ (k j startId : Nat), j < k →
      (trlBuild cs ls startId k)[4 * j]? = some
        { id := startId + 4 * j, type := EType.RC_GROUND, R := 0, L := 0,
          G := 0, C := cs, isPhantom := false } ∧
      (trlBuild cs ls startId k)[4 * j + 1]? = some
        { id := startId + 4 * j + 1, type := EType.RL_SERIES, R := 1 / 10 ^ 7,
          L := 0, G := 0, C := 0, isPhantom := true } ∧
      (trlBuild cs ls startId k)[4 * j + 2]? = some
        { id := startId + 4 * j + 2, type := EType.RC_GROUND, R := 0, L := 0,
          G := 1 / 10 ^ 9, C := 0, isPhantom := true } ∧
      (trlBuild cs ls startId k)[4 * j + 3]? = some
        { id := startId + 4 * j + 3, type := EType.RL_SERIES, R := 0, L := ls,
          G := 0, C := 0, isPhantom := false } := by
  intro k
  induction k with
  | zero => intro j _ h; omega
  | succ n ih =>
    intro j startId hj
    cases j with
    | zero => simp [trlBuild]
    | succ jj =>
      obtain ⟨h1, h2, h3, h4⟩ := ih jj (startId + 4) (by omega)
      have hidx : 4 * (jj + 1) = 4 * jj + 4 := by ring
      rw [hidx]
      have hid : startId + (4 * jj + 4) = startId + 4 + 4 * jj := by ring
      rw [hid]
      simp only [trlBuild, List.getElem?_cons_succ]
      exact ⟨h1, h2, h3, h4⟩

/-- C6: the `TRL LINEAR` statement.  The resolution is the per-line
override when present, else the global `TRLINE-RESOLUTION` when set, else
`globalResolution / 2`; `segments = max(1, round(delay/res))`; and each of
the `segments` iterations appends exactly four nodes in order: a real
RC_GROUND with `C = (delay/Z)/segments`, a phantom RL_SERIES with
`R = 1e-7, L = 0`, a phantom RC_GROUND with `G = 1e-9`, and a real
RL_SERIES with `L = (Z·delay)/segments`. -/
theorem trl_linear_expansion (s : ParseState) (delay Z : ℚ) (resOpt : Option ℚ) :
    let res : ℚ :=
      match resOpt with
      | some r => r
      | none =>
        match s.trLineResolution with
        | some g => g
        | none => s.globalResolution / 2
    let segs : Nat := (max 1 (round (delay / res))).toNat
    ∃ s', processCmd s (Cmd.TRL delay Z resOpt) = Except.ok s' ∧
      1 ≤ segs ∧
      s'.nodes.length = s.nodes.length + 4 * segs ∧
      s'.nodeId = s.nodeId + 4 * segs ∧
      s'.blocks = s.blocks ++
        [{ type := "TRL", startNode := s.nodeId,
           endNode := s.nodeId + 4 * segs - 1 }] ∧
      ∀ j, j < segs →
        s'.nodes[s.nodes.length + (4 * j)]? = some
          { id := s.nodeId + 4 * j, type := EType.RC_GROUND, R := 0, L := 0,
            G := 0, C := (delay / Z) / (segs : ℚ), isPhantom := false } ∧
        s'.nodes[s.nodes.length + (4 * j + 1)]? = some
          { id := s.nodeId + 4 * j + 1, type := EType.RL_SERIES,
            R := 1 / 10 ^ 7, L := 0, G := 0, C := 0, isPhantom := true } ∧
        s'.nodes[s.nodes.length + (4 * j + 2)]? = some
          { id := s.nodeId + 4 * j + 2, type := EType.RC_GROUND, R := 0,
            L := 0, G := 1 / 10 ^ 9, C := 0, isPhantom := true } ∧
        s'.nodes[s.nodes.length + (4 * j + 3)]? = some
          { id := s.nodeId + 4 * j + 3, type := EType.RL_SERIES, R := 0,
            L := (Z * delay) / (segs : ℚ), G := 0, C := 0,
            isPhantom := false } := by
  intro res segs
  have hseg : 1 ≤ segs := by
    have h := le_max_left (1 : ℤ) (round (delay / res))
    simp only [segs]
    omega
  refine ⟨_, rfl, hseg, ?_, rfl, rfl, ?_⟩
  · show (s.nodes ++ trlBuild ((delay / Z) / (segs : ℚ))
      ((Z * delay) / (segs : ℚ)) s.nodeId segs).length
        = s.nodes.length + 4 * segs
    rw [List.length_append, trlBuild_length]
  · intro j hj
    obtain ⟨h1, h2, h3, h4⟩ := trlBuild_segment ((delay / Z) / (segs : ℚ))
      ((Z * delay) / (segs : ℚ)) segs j s.nodeId hj
    refine ⟨?_, ?_, ?_, ?_⟩ <;>
      simp only [getElem?_append_offset] <;>
      assumption

/-- Witness for the C6 theorem: `TRL LINEAR 3 1 1` on a concrete state; the
first emitted node is the real RC_GROUND of segment 0 with
`C = (delay/Z)/segments`. -/
theorem trl_linear_expansion_witness :
    ∃ s', processCmd stateW (Cmd.TRL 3 1 (some 1)) = Except.ok s' ∧
      s'.nodes[stateW.nodes.length + (4 * 0)]? = some
        { id := stateW.nodeId + 4 * 0, type := EType.RC_GROUND, R := 0,
          L := 0, G := 0,
          C := ((3 : ℚ) / 1) / (((max 1 (round ((3 : ℚ) / 1))).toNat : Nat) : ℚ),
          isPhantom := false } := by
  obtain ⟨s', hok, hseg, -, -, -, hquad⟩ := trl_linear_expansion stateW 3 1 (some 1)
  exact ⟨s', hok, (hquad 0 (by omega)).1⟩

/-- A fresh label is kept as-is. -/
theorem uniqueLabel_fresh (target : String) (used : List String)
    (h : target ∉ used) : uniqueLabel target used = target := by
  rw [uniqueLabel, if_neg h]

/-- On the first collision the label becomes `target_1`. -/
theorem uniqueLabel_first_collision (target : String) (used : List String)
    (h : target ∈ used) (h1 : (target ++ "_1") ∉ used) :
    uniqueLabel target used = target ++ "_1" := by
  have hc : target ++ "_" ++ toString 1 = target ++ "_1" := by
    rw [String.append_assoc]; rfl
  rw [uniqueLabel, if_pos h, uniqueLabelLoop]
  simp only [hc]
  rw [if_neg h1]

/-- On the second collision the label becomes `target_2`. -/
theorem uniqueLabel_second_collision (target : String) (used : List String)
    (h : target ∈ used) (h1 : (target ++ "_1") ∈ used)
    (h2 : (target ++ "_2") ∉ used) :
    uniqueLabel target used = target ++ "_2" := by
  have hc1 : target ++ "_" ++ toString 1 = target ++ "_1" := by
    rw [String.append_assoc]; rfl
  have hc2 : target ++ "_" ++ toString 2 = target ++ "_2" := by
    rw [String.append_assoc]; rfl
  rw [uniqueLabel, if_pos h, uniqueLabelLoop]
  simp only [hc1]
  rw [if_pos h1]
  obtain ⟨len', hlen⟩ : ∃ len', used.length = len' + 1 :=
    ⟨used.length - 1, by
      have := List.length_pos.mpr (List.ne_nil_of_mem h)
      omega⟩
  rw [hlen, uniqueLabelLoop]
  simp only [hc2]
  rw [if_neg h2]

/-- C8: the `TXT <label>` statement after at least one block.  A label
starting with `I` registers a current probe at the node just before the
block's start (node 0 when the block starts at index 0); a label starting
with `V` registers a voltage probe at the block's last non-phantom node;
and labels are deduplicated by suffixing: a fresh label is kept, a second
occurrence becomes `label_1`, the next `label_2`. -/
theorem txt_probe_rules (s : ParseState) (blk : Block) (target : String)
    (hblk : s.blocks.getLast? = some blk) :
    ∃ s', processCmd s (Cmd.TXT target) = Except.ok s' ∧
      s'.nodes = s.nodes ∧
      s'.usedLabels = s.usedLabels ++ [uniqueLabel target s.usedLabels] ∧
      (target.startsWith "I" = true → target.startsWith "V" = false →
        s'.outputRequests = s.outputRequests ++
          [{ kind := OutKind.current,
             nodeIndex := if blk.startNode = 0 then 0 else blk.startNode - 1,
             label := uniqueLabel target s.usedLabels }]) ∧
      (target.startsWith "I" = false → target.startsWith "V" = true →
        ∀ j n, blk.startNode ≤ j → j ≤ blk.endNode →
          s.nodes[j]? = some n → n.isPhantom = false →
          (∀ j' n', j < j' → j' ≤ blk.endNode → s.nodes[j']? = some n' →
            n'.isPhantom = true) →
          s'.outputRequests = s.outputRequests ++
            [{ kind := OutKind.voltage, nodeIndex := j,
               label := uniqueLabel target s.usedLabels }]) ∧
      (target ∉ s.usedLabels → uniqueLabel target s.usedLabels = target) ∧
      (target ∈ s.usedLabels → (target ++ "_1") ∉ s.usedLabels →
        uniqueLabel target s.usedLabels = target ++ "_1") ∧
      (target ∈ s.usedLabels → (target ++ "_1") ∈ s.usedLabels →
        (target ++ "_2") ∉ s.usedLabels →
        uniqueLabel target s.usedLabels = target ++ "_2") := by
  refine ⟨applyTXT s target, rfl, rfl, rfl, ?_, ?_,
    fun h => uniqueLabel_fresh target s.usedLabels h,
    fun h h1 => uniqueLabel_first_collision target s.usedLabels h h1,
    fun h h1 h2 => uniqueLabel_second_collision target s.usedLabels h h1 h2⟩
  · intro hI hV
    rcases Nat.eq_zero_or_pos blk.startNode with h0 | h0
    · simp [applyTXT, hblk, hI, hV, h0]
    · simp [applyTXT, hblk, hI, hV, h0, Nat.pos_iff_ne_zero.mp h0]
  · intro hI hV j n hlo hhi hnode hph habove
    have hfind : searchDown (fun k =>
        match s.nodes[k]? with
        | some n => !n.isPhantom
        | none => false) blk.startNode blk.endNode = some j := by
      apply searchDown_finds
      · simp [hnode, hph]
      · exact hlo
      · exact hhi
      · intro j' h1 h2
        rcases hn' : s.nodes[j']? with _ | n'
        · simp [hn']
        · simp [hn', habove j' n' h1 h2 hn']
    simp [applyTXT, hblk, hI, hV]
    rw [hfind]
    rfl

/-- Witness for the C8 theorem: `TXT V1` on a one-block state whose label
`V1` is already taken; the probe lands on the block's last non-phantom
node (index 0) and the label is deduplicated to `V1_1`. -/
theorem txt_probe_rules_witness :
    ∃ s', processCmd txtStateW (Cmd.TXT "V1") = Except.ok s' ∧
      s'.outputRequests = txtStateW.outputRequests ++
        [{ kind := OutKind.voltage, nodeIndex := 0,
           label := uniqueLabel "V1" txtStateW.usedLabels }] ∧
      uniqueLabel "V1" txtStateW.usedLabels = "V1" ++ "_1" := by
  obtain ⟨s', hok, -, -, -, hV, -, hdedup, -⟩ :=
    txt_probe_rules txtStateW { type := "RCG", startNode := 0, endNode := 1 }
      "V1" rfl
  refine ⟨s', hok, ?_, hdedup (by simp [txtStateW]) (by simp [txtStateW])⟩
  refine hV (by with_unfolding_all decide) (by with_unfolding_all decide) 0
    txtNodeRealW (Nat.le_refl 0) (Nat.zero_le 1) rfl rfl ?_
  intro j' n' h1 h2 hn'
  have h2' : j' ≤ 1 := h2
  have hj' : j' = 1 := by omega
  subst hj'
  have : n' = txtNodePhantomW := by
    have h := hn'
    rw [show txtStateW.nodes[1]? = some txtNodePhantomW from rfl] at h
    exact (Option.some.inj h).symm
  rw [this]
  rfl

/-- `setMatrixVal` leaves `V_old` unchanged. -/
@[simp]
theorem setMatrixVal_V_old (m : Mem) (row col : ℤ) (v : ℚ) :
    (setMatrixVal m row col v).V_old = m.V_old := by
  rw [setMatrixVal]; split_ifs <;> rfl

/-- `setMatrixVal` leaves `I_old` unchanged. -/
@[simp]
theorem setMatrixVal_I_old (m : Mem) (row col : ℤ) (v : ℚ) :
    (setMatrixVal m row col v).I_old = m.I_old := by
  rw [setMatrixVal]; split_ifs <;> rfl

/-- `setMatrixVal` leaves `N_nodes` unchanged. -/
@[simp]
theorem setMatrixVal_N_nodes (m : Mem) (row col : ℤ) (v : ℚ) :
    (setMatrixVal m row col v).N_nodes = m.N_nodes := by
  rw [setMatrixVal]; split_ifs <;> rfl

/-- `setMatrixVal` leaves the RHS vector unchanged. -/
@[simp]
theorem setMatrixVal_b_vector (m : Mem) (row col : ℤ) (v : ℚ) :
    (setMatrixVal m row col v).b_vector = m.b_vector := by
  rw [setMatrixVal]; split_ifs <;> rfl

/-- `stepRows` only writes matrix coefficients: the state buffers and the
node count are unchanged. -/
theorem stepRows_state (dt : ℚ) (nodes : Nat → Node) (j : Nat) (m : Mem) :
    (stepRows dt nodes j m).V_old = m.V_old ∧
    (stepRows dt nodes j m).I_old = m.I_old ∧
    (stepRows dt nodes j m).N_nodes = m.N_nodes := by
  simp only [stepRows]
  split_ifs <;> exact ⟨by simp, by simp, by simp⟩

/-- The population loop leaves the state buffers and node count unchanged. -/
theorem populateUpTo_state (dt : ℚ) (nodes : Nat → Node) (m : Mem) :
    ∀ K, (populateUpTo dt nodes m K).V_old = m.V_old ∧
      (populateUpTo dt nodes m K).I_old = m.I_old ∧
      (populateUpTo dt nodes m K).N_nodes = m.N_nodes := by
  intro K
  induction K with
  | zero => exact ⟨rfl, rfl, rfl⟩
  | succ k ih =>
    obtain ⟨hV, hI, hN⟩ := ih
    obtain ⟨hV', hI', hN'⟩ := stepRows_state dt nodes k (populateUpTo dt nodes m k)
    exact ⟨hV'.trans hV, hI'.trans hI, hN'.trans hN⟩

/-- A `setMatrixVal` write at a row other than `r` leaves every band of
row `r` unchanged. -/
theorem setMatrixVal_bands_ne (m : Mem) (row col r : ℤ) (v : ℚ) (h : r ≠ row) :
    (setMatrixVal m row col v).diag r = m.diag r ∧
    (setMatrixVal m row col v).upper1 r = m.upper1 r ∧
    (setMatrixVal m row col v).lower1 r = m.lower1 r ∧
    (setMatrixVal m row col v).upper2 r = m.upper2 r ∧
    (setMatrixVal m row col v).lower2 r = m.lower2 r := by
  rw [setMatrixVal]
  split_ifs <;> simp [Function.update_noteq h]

/-- `stepRows` for node `j` writes only to rows `2j` and `2j+1`: all bands
and the RHS of any other row `r` are unchanged. -/
theorem stepRows_bands_ne (dt : ℚ) (nodes : Nat → Node) (j : Nat) (m : Mem)
    (r : ℤ) (h1 : r ≠ 2 * (j : ℤ)) (h2 : r ≠ 2 * (j : ℤ) + 1) :
    (stepRows dt nodes j m).diag r = m.diag r ∧
    (stepRows dt nodes j m).upper1 r = m.upper1 r ∧
    (stepRows dt nodes j m).lower1 r = m.lower1 r ∧
    (stepRows dt nodes j m).upper2 r = m.upper2 r ∧
    (stepRows dt nodes j m).lower2 r = m.lower2 r ∧
    (stepRows dt nodes j m).b_vector r = m.b_vector r := by
  simp only [stepRows]
  split_ifs <;>
    refine ⟨?_, ?_, ?_, ?_, ?_, ?_⟩ <;>
    simp [setMatrixVal_bands_ne _ _ _ _ _ h1, setMatrixVal_bands_ne _ _ _ _ _ h2,
      Function.update_noteq h1, Function.update_noteq h2]

/-- Reading the main diagonal after a diagonal write. -/
theorem setMatrixVal_diag_hit {m : Mem} {row col r : ℤ} (v : ℚ)
    (h1 : col = row) (h2 : r = row) :
    (setMatrixVal m row col v).diag r = v := by
  rw [setMatrixVal, if_pos h1, h2]
  exact Function.update_same row v m.diag

/-- The main diagonal is unchanged unless the write targets it at `r`. -/
theorem setMatrixVal_diag_miss {m : Mem} {row col r : ℤ} (v : ℚ)
    (h : ¬(col = row ∧ r = row)) :
    (setMatrixVal m row col v).diag r = m.diag r := by
  rw [setMatrixVal]
  split_ifs with c1 c2 c3 c4 c5
  · exact Function.update_noteq (fun hr => h ⟨c1, hr⟩) v m.diag
  all_goals rfl

/-- Reading `upper1` after a `+1`-offset write. -/
theorem setMatrixVal_upper1_hit {m : Mem} {row col r : ℤ} (v : ℚ)
    (h1 : col = row + 1) (h2 : r = row) :
    (setMatrixVal m row col v).upper1 r = v := by
  rw [setMatrixVal, if_neg (by omega), if_pos h1, h2]
  exact Function.update_same row v m.upper1

/-- `upper1` is unchanged unless the write targets it at `r`. -/
theorem setMatrixVal_upper1_miss {m : Mem} {row col r : ℤ} (v : ℚ)
    (h : ¬(col = row + 1 ∧ r = row)) :
    (setMatrixVal m row col v).upper1 r = m.upper1 r := by
  rw [setMatrixVal]
  split_ifs with c1 c2 c3 c4 c5
  · rfl
  · exact Function.update_noteq (fun hr => h ⟨c2, hr⟩) v m.upper1
  all_goals rfl

/-- Reading `lower1` after a `-1`-offset write. -/
theorem setMatrixVal_lower1_hit {m : Mem} {row col r : ℤ} (v : ℚ)
    (h1 : col = row - 1) (h2 : r = row) :
    (setMatrixVal m row col v).lower1 r = v := by
  rw [setMatrixVal, if_neg (by omega), if_neg (by omega), if_pos h1, h2]
  exact Function.update_same row v m.lower1

/-- `lower1` is unchanged unless the write targets it at `r`. -/
theorem setMatrixVal_lower1_miss {m : Mem} {row col r : ℤ} (v : ℚ)
    (h : ¬(col = row - 1 ∧ r = row)) :
    (setMatrixVal m row col v).lower1 r = m.lower1 r := by
  rw [setMatrixVal]
  split_ifs with c1 c2 c3 c4 c5
  · rfl
  · rfl
  · exact Function.update_noteq (fun hr => h ⟨c3, hr⟩) v m.lower1
  all_goals rfl

/-- Reading `upper2` after a `+2`-offset write. -/
theorem setMatrixVal_upper2_hit {m : Mem} {row col r : ℤ} (v : ℚ)
    (h1 : col = row + 2) (h2 : r = row) :
    (setMatrixVal m row col v).upper2 r = v := by
  rw [setMatrixVal, if_neg (by omega), if_neg (by omega), if_neg (by omega),
    if_pos h1, h2]
  exact Function.update_same row v m.upper2

/-- `upper2` is unchanged unless the write targets it at `r`. -/
theorem setMatrixVal_upper2_miss {m : Mem} {row col r : ℤ} (v : ℚ)
    (h : ¬(col = row + 2 ∧ r = row)) :
    (setMatrixVal m row col v).upper2 r = m.upper2 r := by
  rw [setMatrixVal]
  split_ifs with c1 c2 c3 c4 c5
  · rfl
  · rfl
  · rfl
  · exact Function.update_noteq (fun hr => h ⟨c4, hr⟩) v m.upper2
  all_goals rfl

/-- Reading `lower2` after a `-2`-offset write. -/
theorem setMatrixVal_lower2_hit {m : Mem} {row col r : ℤ} (v : ℚ)
    (h1 : col = row - 2) (h2 : r = row) :
    (setMatrixVal m row col v).lower2 r = v := by
  rw [setMatrixVal, if_neg (by omega), if_neg (by omega), if_neg (by omega),
    if_neg (by omega), if_pos h1, h2]
  exact Function.update_same row v m.lower2

/-- `lower2` is unchanged unless the write targets it at `r`. -/
theorem setMatrixVal_lower2_miss {m : Mem} {row col r : ℤ} (v : ℚ)
    (h : ¬(col = row - 2 ∧ r = row)) :
    (setMatrixVal m row col v).lower2 r = m.lower2 r := by
  rw [setMatrixVal]
  split_ifs with c1 c2 c3 c4 c5
  · rfl
  · rfl
  · rfl
  · rfl
  · exact Function.update_noteq (fun hr => h ⟨c5, hr⟩) v m.lower2
  rfl

/-- `matEntry` at offset `0`. -/
theorem matEntry_at_diag {m : Mem} {row col : ℤ} (h : col = row) :
    matEntry m row col = m.diag row := by
  rw [matEntry, if_pos h]

/-- `matEntry` at offset `+1`. -/
theorem matEntry_at_upper1 {m : Mem} {row col : ℤ} (h : col = row + 1) :
    matEntry m row col = m.upper1 row := by
  rw [matEntry, if_neg (by omega), if_pos h]

/-- `matEntry` at offset `-1`. -/
theorem matEntry_at_lower1 {m : Mem} {row col : ℤ} (h : col = row - 1) :
    matEntry m row col = m.lower1 row := by
  rw [matEntry, if_neg (by omega), if_neg (by omega), if_pos h]

/-- `matEntry` at offset `+2`. -/
theorem matEntry_at_upper2 {m : Mem} {row col : ℤ} (h : col = row + 2) :
    matEntry m row col = m.upper2 row := by
  rw [matEntry, if_neg (by omega), if_neg (by omega), if_neg (by omega),
    if_pos h]

/-- `matEntry` at offset `-2`. -/
theorem matEntry_at_lower2 {m : Mem} {row col : ℤ} (h : col = row - 2) :
    matEntry m row col = m.lower2 row := by
  rw [matEntry, if_neg (by omega), if_neg (by omega), if_neg (by omega),
    if_neg (by omega), if_pos h]

/-- `matEntry` outside the five bands. -/
theorem matEntry_offband {m : Mem} {row col : ℤ}
    (h : ¬(col = row ∨ col = row + 1 ∨ col = row - 1 ∨ col = row + 2 ∨
      col = row - 2)) :
    matEntry m row col = 0 := by
  rw [matEntry, if_neg (by omega), if_neg (by omega), if_neg (by omega),
    if_neg (by omega), if_neg (by omega)]

/-- Rows not owned by any processed node keep their incoming band and
RHS values through the population loop. -/
theorem populateUpTo_bands_untouched (dt : ℚ) (nodes : Nat → Node) (m : Mem)
    (r : ℤ) :
    ∀ K : Nat, (∀ k : Nat, k < K → r ≠ 2 * (k : ℤ) ∧ r ≠ 2 * (k : ℤ) + 1) →
      (populateUpTo dt nodes m K).diag r = m.diag r ∧
      (populateUpTo dt nodes m K).upper1 r = m.upper1 r ∧
      (populateUpTo dt nodes m K).lower1 r = m.lower1 r ∧
      (populateUpTo dt nodes m K).upper2 r = m.upper2 r ∧
      (populateUpTo dt nodes m K).lower2 r = m.lower2 r ∧
      (populateUpTo dt nodes m K).b_vector r = m.b_vector r := by
  intro K
  induction K with
  | zero => exact fun _ => ⟨rfl, rfl, rfl, rfl, rfl, rfl⟩
  | succ k ih =>
    intro h
    obtain ⟨e1, e2⟩ := h k (by omega)
    obtain ⟨a1, a2, a3, a4, a5, a6⟩ :=
      stepRows_bands_ne dt nodes k (populateUpTo dt nodes m k) r e1 e2
    obtain ⟨b1, b2, b3, b4, b5, b6⟩ := ih (fun k' hk' => h k' (by omega))
    exact ⟨a1.trans b1, a2.trans b2, a3.trans b3, a4.trans b4, a5.trans b5,
      a6.trans b6⟩

/-- Once node `i` has been processed, its two rows never change again:
the loop state at any count `K ≥ i + 1` agrees with the state at `i + 1`
on rows `2i` and `2i+1`. -/
theorem populateUpTo_bands_ge (dt : ℚ) (nodes : Nat → Node) (m : Mem)
    (i : Nat) (r : ℤ) (hr : r = 2 * (i : ℤ) ∨ r = 2 * (i : ℤ) + 1) :
    ∀ K : Nat, i + 1 ≤ K →
      (populateUpTo dt nodes m K).diag r = (populateUpTo dt nodes m (i + 1)).diag r ∧
      (populateUpTo dt nodes m K).upper1 r = (populateUpTo dt nodes m (i + 1)).upper1 r ∧
      (populateUpTo dt nodes m K).lower1 r = (populateUpTo dt nodes m (i + 1)).lower1 r ∧
      (populateUpTo dt nodes m K).upper2 r = (populateUpTo dt nodes m (i + 1)).upper2 r ∧
      (populateUpTo dt nodes m K).lower2 r = (populateUpTo dt nodes m (i + 1)).lower2 r ∧
      (populateUpTo dt nodes m K).b_vector r = (populateUpTo dt nodes m (i + 1)).b_vector r := by
  intro K
  induction K with
  | zero => intro h; omega
  | succ k ih =>
    intro hK
    rcases Nat.lt_or_ge (i + 1) (k + 1) with hlt | hge
    · have e1 : r ≠ 2 * (k : ℤ) := by rcases hr with h | h <;> omega
      have e2 : r ≠ 2 * (k : ℤ) + 1 := by rcases hr with h | h <;> omega
      obtain ⟨a1, a2, a3, a4, a5, a6⟩ :=
        stepRows_bands_ne dt nodes k (populateUpTo dt nodes m k) r e1 e2
      obtain ⟨b1, b2, b3, b4, b5, b6⟩ := ih (by omega)
      exact ⟨a1.trans b1, a2.trans b2, a3.trans b3, a4.trans b4, a5.trans b5,
        a6.trans b6⟩
    · have hk : k = i := by omega
      subst hk
      exact ⟨rfl, rfl, rfl, rfl, rfl, rfl⟩

/-- ite resolution with an externally discharged condition. -/
theorem ite_yes {c : Prop} [Decidable c] {α : Sort _} (a b : α) (h : c) :
    (if c then a else b) = a := if_pos h

/-- ite resolution with an externally refuted condition. -/
theorem ite_no {c : Prop} [Decidable c] {α : Sort _} (a b : α) (h : ¬c) :
    (if c then a else b) = b := if_neg h

/-- Push a `diag` read through an ite of memories. -/
theorem ite_mem_diag {c : Prop} [Decidable c] (x y : Mem) (r : ℤ) :
    (if c then x else y).diag r = if c then x.diag r else y.diag r := by
  split_ifs <;> rfl

/-- Push an `upper1` read through an ite of memories. -/
theorem ite_mem_upper1 {c : Prop} [Decidable c] (x y : Mem) (r : ℤ) :
    (if c then x else y).upper1 r = if c then x.upper1 r else y.upper1 r := by
  split_ifs <;> rfl

/-- Push a `lower1` read through an ite of memories. -/
theorem ite_mem_lower1 {c : Prop} [Decidable c] (x y : Mem) (r : ℤ) :
    (if c then x else y).lower1 r = if c then x.lower1 r else y.lower1 r := by
  split_ifs <;> rfl

/-- Push an `upper2` read through an ite of memories. -/
theorem ite_mem_upper2 {c : Prop} [Decidable c] (x y : Mem) (r : ℤ) :
    (if c then x else y).upper2 r = if c then x.upper2 r else y.upper2 r := by
  split_ifs <;> rfl

/-- Push a `lower2` read through an ite of memories. -/
theorem ite_mem_lower2 {c : Prop} [Decidable c] (x y : Mem) (r : ℤ) :
    (if c then x else y).lower2 r = if c then x.lower2 r else y.lower2 r := by
  split_ifs <;> rfl

/-- Push a RHS read through an ite of memories. -/
theorem ite_mem_b {c : Prop} [Decidable c] (x y : Mem) (r : ℤ) :
    (if c then x else y).b_vector r = if c then x.b_vector r else y.b_vector r := by
  split_ifs <;> rfl

/-- `matEntry` spelled out as the banded if-chain. -/
theorem matEntry_row_cases (m : Mem) (row c : ℤ) :
    matEntry m row c =
      if c = row then m.diag row
      else if c = row + 1 then m.upper1 row
      else if c = row - 1 then m.lower1 row
      else if c = row + 2 then m.upper2 row
      else if c = row - 2 then m.lower2 row
      else 0 := rfl

/-- Row contents written by `stepRows` for an RC_GROUND node `i` into a
memory whose two rows are still clear: the KCL row is `2i`, the voltage
row is `2i+1` (solver.js row-swap convention). -/
theorem stepRows_stencil_rc (dt : ℚ) (nodes : Nat → Node) (i : Nat) (M : Mem)
    (hty : (nodes i).type = EType.RC_GROUND) (hiN : i < M.N_nodes)
    (hz1 : M.diag (2 * (i : ℤ)) = 0) (hz2 : M.upper1 (2 * (i : ℤ)) = 0)
    (hz3 : M.lower1 (2 * (i : ℤ)) = 0) (hz4 : M.upper2 (2 * (i : ℤ)) = 0)
    (hz5 : M.lower2 (2 * (i : ℤ)) = 0)
    (hz6 : M.diag (2 * (i : ℤ) + 1) = 0) (hz7 : M.upper1 (2 * (i : ℤ) + 1) = 0)
    (hz8 : M.lower1 (2 * (i : ℤ) + 1) = 0) (hz9 : M.upper2 (2 * (i : ℤ) + 1) = 0)
    (hz10 : M.lower2 (2 * (i : ℤ) + 1) = 0) :
    matEntry (stepRows dt nodes i M) (2 * (i : ℤ)) (2 * (i : ℤ)) =
      THETA * (nodes i).G + (nodes i).C / dt ∧
    matEntry (stepRows dt nodes i M) (2 * (i : ℤ)) (2 * (i : ℤ) + 1) = THETA ∧
    (0 < i →
      matEntry (stepRows dt nodes i M) (2 * (i : ℤ)) (2 * (i : ℤ) - 1) = -THETA) ∧
    (stepRows dt nodes i M).b_vector (2 * (i : ℤ)) =
      (1 - THETA) * ((if 0 < i then M.I_old (i - 1) else 0) - M.I_old i)
        + ((nodes i).C / dt - (1 - THETA) * (nodes i).G) * M.V_old i ∧
    (i = M.N_nodes - 1 →
      (∀ c : ℤ, matEntry (stepRows dt nodes i M) (2 * (i : ℤ) + 1) c =
        if c = 2 * (i : ℤ) + 1 then 1 else 0) ∧
      (stepRows dt nodes i M).b_vector (2 * (i : ℤ) + 1) = 0) ∧
    (i ≠ M.N_nodes - 1 →
      matEntry (stepRows dt nodes i M) (2 * (i : ℤ) + 1) (2 * (i : ℤ)) = THETA ∧
      matEntry (stepRows dt nodes i M) (2 * (i : ℤ) + 1) (2 * (i : ℤ) + 1) =
        -(THETA * (nodes i).R + (nodes i).L / dt) ∧
      matEntry (stepRows dt nodes i M) (2 * (i : ℤ) + 1) (2 * (i : ℤ) + 2) =
        -THETA ∧
      (stepRows dt nodes i M).b_vector (2 * (i : ℤ) + 1) =
        (1 - THETA) * (M.V_old (i + 1) - M.V_old i)
          - ((nodes i).L / dt - (1 - THETA) * (nodes i).R) * M.I_old i) := by
  refine ⟨?_, ?_, fun h0 => ?_, ?_, fun hL => ?_, fun hNL => ?_⟩
  · simp (disch := omega) only [stepRows, hty, eq_self_iff_true, ite_true,
      ite_false, ite_self, ite_apply, ite_mem_diag, ite_mem_upper1,
      ite_mem_lower1, ite_mem_upper2, ite_mem_lower2, ite_mem_b, ite_yes,
      ite_no, matEntry_at_diag, matEntry_at_upper1, matEntry_at_lower1,
      matEntry_at_upper2, matEntry_at_lower2, setMatrixVal_diag_hit,
      setMatrixVal_diag_miss, setMatrixVal_upper1_hit, setMatrixVal_upper1_miss,
      setMatrixVal_lower1_hit, setMatrixVal_lower1_miss, setMatrixVal_upper2_hit,
      setMatrixVal_upper2_miss, setMatrixVal_lower2_hit, setMatrixVal_lower2_miss,
      setMatrixVal_b_vector, Function.update_same, Function.update_noteq,
      hz1, hz2, hz3, hz4, hz5, hz6, hz7, hz8, hz9, hz10]
  · simp (disch := omega) only [stepRows, hty, eq_self_iff_true, ite_true,
      ite_false, ite_self, ite_apply, ite_mem_diag, ite_mem_upper1,
      ite_mem_lower1, ite_mem_upper2, ite_mem_lower2, ite_mem_b, ite_yes,
      ite_no, matEntry_at_diag, matEntry_at_upper1, matEntry_at_lower1,
      matEntry_at_upper2, matEntry_at_lower2, setMatrixVal_diag_hit,
      setMatrixVal_diag_miss, setMatrixVal_upper1_hit, setMatrixVal_upper1_miss,
      setMatrixVal_lower1_hit, setMatrixVal_lower1_miss, setMatrixVal_upper2_hit,
      setMatrixVal_upper2_miss, setMatrixVal_lower2_hit, setMatrixVal_lower2_miss,
      setMatrixVal_b_vector, Function.update_same, Function.update_noteq,
      hz1, hz2, hz3, hz4, hz5, hz6, hz7, hz8, hz9, hz10]
  · simp (disch := omega) only [stepRows, hty, eq_self_iff_true, ite_true,
      ite_false, ite_self, ite_apply, ite_mem_diag, ite_mem_upper1,
      ite_mem_lower1, ite_mem_upper2, ite_mem_lower2, ite_mem_b, ite_yes,
      ite_no, matEntry_at_diag, matEntry_at_upper1, matEntry_at_lower1,
      matEntry_at_upper2, matEntry_at_lower2, setMatrixVal_diag_hit,
      setMatrixVal_diag_miss, setMatrixVal_upper1_hit, setMatrixVal_upper1_miss,
      setMatrixVal_lower1_hit, setMatrixVal_lower1_miss, setMatrixVal_upper2_hit,
      setMatrixVal_upper2_miss, setMatrixVal_lower2_hit, setMatrixVal_lower2_miss,
      setMatrixVal_b_vector, Function.update_same, Function.update_noteq,
      hz1, hz2, hz3, hz4, hz5, hz6, hz7, hz8, hz9, hz10]
  · simp (disch := omega) only [stepRows, hty, eq_self_iff_true, ite_true,
      ite_false, ite_self, ite_apply, ite_mem_diag, ite_mem_upper1,
      ite_mem_lower1, ite_mem_upper2, ite_mem_lower2, ite_mem_b, ite_yes,
      ite_no, matEntry_at_diag, matEntry_at_upper1, matEntry_at_lower1,
      matEntry_at_upper2, matEntry_at_lower2, setMatrixVal_diag_hit,
      setMatrixVal_diag_miss, setMatrixVal_upper1_hit, setMatrixVal_upper1_miss,
      setMatrixVal_lower1_hit, setMatrixVal_lower1_miss, setMatrixVal_upper2_hit,
      setMatrixVal_upper2_miss, setMatrixVal_lower2_hit, setMatrixVal_lower2_miss,
      setMatrixVal_b_vector, Function.update_same, Function.update_noteq,
      hz1, hz2, hz3, hz4, hz5, hz6, hz7, hz8, hz9, hz10]
  · refine ⟨fun c => ?_, ?_⟩
    ·
      have hdiag : (stepRows dt nodes i M).diag (2 * (i : ℤ) + 1) = 1 := by
        simp (disch := omega) only [stepRows, hty, eq_self_iff_true, ite_true,
              ite_false, ite_self, ite_apply, ite_mem_diag, ite_mem_upper1,
              ite_mem_lower1, ite_mem_upper2, ite_mem_lower2, ite_mem_b, ite_yes,
              ite_no, matEntry_at_diag, matEntry_at_upper1, matEntry_at_lower1,
              matEntry_at_upper2, matEntry_at_lower2, setMatrixVal_diag_hit,
              setMatrixVal_diag_miss, setMatrixVal_upper1_hit, setMatrixVal_upper1_miss,
              setMatrixVal_lower1_hit, setMatrixVal_lower1_miss, setMatrixVal_upper2_hit,
              setMatrixVal_upper2_miss, setMatrixVal_lower2_hit, setMatrixVal_lower2_miss,
              setMatrixVal_b_vector, Function.update_same, Function.update_noteq,
              hz1, hz2, hz3, hz4, hz5, hz6, hz7, hz8, hz9, hz10]
      have hupper1 : (stepRows dt nodes i M).upper1 (2 * (i : ℤ) + 1) = 0 := by
        simp (disch := omega) only [stepRows, hty, eq_self_iff_true, ite_true,
              ite_false, ite_self, ite_apply, ite_mem_diag, ite_mem_upper1,
              ite_mem_lower1, ite_mem_upper2, ite_mem_lower2, ite_mem_b, ite_yes,
              ite_no, matEntry_at_diag, matEntry_at_upper1, matEntry_at_lower1,
              matEntry_at_upper2, matEntry_at_lower2, setMatrixVal_diag_hit,
              setMatrixVal_diag_miss, setMatrixVal_upper1_hit, setMatrixVal_upper1_miss,
              setMatrixVal_lower1_hit, setMatrixVal_lower1_miss, setMatrixVal_upper2_hit,
              setMatrixVal_upper2_miss, setMatrixVal_lower2_hit, setMatrixVal_lower2_miss,
              setMatrixVal_b_vector, Function.update_same, Function.update_noteq,
              hz1, hz2, hz3, hz4, hz5, hz6, hz7, hz8, hz9, hz10]
      have hlower1 : (stepRows dt nodes i M).lower1 (2 * (i : ℤ) + 1) = 0 := by
        simp (disch := omega) only [stepRows, hty, eq_self_iff_true, ite_true,
              ite_false, ite_self, ite_apply, ite_mem_diag, ite_mem_upper1,
              ite_mem_lower1, ite_mem_upper2, ite_mem_lower2, ite_mem_b, ite_yes,
              ite_no, matEntry_at_diag, matEntry_at_upper1, matEntry_at_lower1,
              matEntry_at_upper2, matEntry_at_lower2, setMatrixVal_diag_hit,
              setMatrixVal_diag_miss, setMatrixVal_upper1_hit, setMatrixVal_upper1_miss,
              setMatrixVal_lower1_hit, setMatrixVal_lower1_miss, setMatrixVal_upper2_hit,
              setMatrixVal_upper2_miss, setMatrixVal_lower2_hit, setMatrixVal_lower2_miss,
              setMatrixVal_b_vector, Function.update_same, Function.update_noteq,
              hz1, hz2, hz3, hz4, hz5, hz6, hz7, hz8, hz9, hz10]
      have hupper2 : (stepRows dt nodes i M).upper2 (2 * (i : ℤ) + 1) = 0 := by
        simp (disch := omega) only [stepRows, hty, eq_self_iff_true, ite_true,
              ite_false, ite_self, ite_apply, ite_mem_diag, ite_mem_upper1,
              ite_mem_lower1, ite_mem_upper2, ite_mem_lower2, ite_mem_b, ite_yes,
              ite_no, matEntry_at_diag, matEntry_at_upper1, matEntry_at_lower1,
              matEntry_at_upper2, matEntry_at_lower2, setMatrixVal_diag_hit,
              setMatrixVal_diag_miss, setMatrixVal_upper1_hit, setMatrixVal_upper1_miss,
              setMatrixVal_lower1_hit, setMatrixVal_lower1_miss, setMatrixVal_upper2_hit,
              setMatrixVal_upper2_miss, setMatrixVal_lower2_hit, setMatrixVal_lower2_miss,
              setMatrixVal_b_vector, Function.update_same, Function.update_noteq,
              hz1, hz2, hz3, hz4, hz5, hz6, hz7, hz8, hz9, hz10]
      have hlower2 : (stepRows dt nodes i M).lower2 (2 * (i : ℤ) + 1) = 0 := by
        simp (disch := omega) only [stepRows, hty, eq_self_iff_true, ite_true,
              ite_false, ite_self, ite_apply, ite_mem_diag, ite_mem_upper1,
              ite_mem_lower1, ite_mem_upper2, ite_mem_lower2, ite_mem_b, ite_yes,
              ite_no, matEntry_at_diag, matEntry_at_upper1, matEntry_at_lower1,
              matEntry_at_upper2, matEntry_at_lower2, setMatrixVal_diag_hit,
              setMatrixVal_diag_miss, setMatrixVal_upper1_hit, setMatrixVal_upper1_miss,
              setMatrixVal_lower1_hit, setMatrixVal_lower1_miss, setMatrixVal_upper2_hit,
              setMatrixVal_upper2_miss, setMatrixVal_lower2_hit, setMatrixVal_lower2_miss,
              setMatrixVal_b_vector, Function.update_same, Function.update_noteq,
              hz1, hz2, hz3, hz4, hz5, hz6, hz7, hz8, hz9, hz10]
      rw [matEntry_row_cases, hdiag, hupper1, hlower1, hupper2, hlower2]
      split_ifs <;> first | rfl | omega
    · simp (disch := omega) only [stepRows, hty, eq_self_iff_true, ite_true,
      ite_false, ite_self, ite_apply, ite_mem_diag, ite_mem_upper1,
      ite_mem_lower1, ite_mem_upper2, ite_mem_lower2, ite_mem_b, ite_yes,
      ite_no, matEntry_at_diag, matEntry_at_upper1, matEntry_at_lower1,
      matEntry_at_upper2, matEntry_at_lower2, setMatrixVal_diag_hit,
      setMatrixVal_diag_miss, setMatrixVal_upper1_hit, setMatrixVal_upper1_miss,
      setMatrixVal_lower1_hit, setMatrixVal_lower1_miss, setMatrixVal_upper2_hit,
      setMatrixVal_upper2_miss, setMatrixVal_lower2_hit, setMatrixVal_lower2_miss,
      setMatrixVal_b_vector, Function.update_same, Function.update_noteq,
      hz1, hz2, hz3, hz4, hz5, hz6, hz7, hz8, hz9, hz10]
  · refine ⟨?_, ?_, ?_, ?_⟩
    · simp (disch := omega) only [stepRows, hty, eq_self_iff_true, ite_true,
      ite_false, ite_self, ite_apply, ite_mem_diag, ite_mem_upper1,
      ite_mem_lower1, ite_mem_upper2, ite_mem_lower2, ite_mem_b, ite_yes,
      ite_no, matEntry_at_diag, matEntry_at_upper1, matEntry_at_lower1,
      matEntry_at_upper2, matEntry_at_lower2, setMatrixVal_diag_hit,
      setMatrixVal_diag_miss, setMatrixVal_upper1_hit, setMatrixVal_upper1_miss,
      setMatrixVal_lower1_hit, setMatrixVal_lower1_miss, setMatrixVal_upper2_hit,
      setMatrixVal_upper2_miss, setMatrixVal_lower2_hit, setMatrixVal_lower2_miss,
      setMatrixVal_b_vector, Function.update_same, Function.update_noteq,
      hz1, hz2, hz3, hz4, hz5, hz6, hz7, hz8, hz9, hz10]
    · simp (disch := omega) only [stepRows, hty, eq_self_iff_true, ite_true,
      ite_false, ite_self, ite_apply, ite_mem_diag, ite_mem_upper1,
      ite_mem_lower1, ite_mem_upper2, ite_mem_lower2, ite_mem_b, ite_yes,
      ite_no, matEntry_at_diag, matEntry_at_upper1, matEntry_at_lower1,
      matEntry_at_upper2, matEntry_at_lower2, setMatrixVal_diag_hit,
      setMatrixVal_diag_miss, setMatrixVal_upper1_hit, setMatrixVal_upper1_miss,
      setMatrixVal_lower1_hit, setMatrixVal_lower1_miss, setMatrixVal_upper2_hit,
      setMatrixVal_upper2_miss, setMatrixVal_lower2_hit, setMatrixVal_lower2_miss,
      setMatrixVal_b_vector, Function.update_same, Function.update_noteq,
      hz1, hz2, hz3, hz4, hz5, hz6, hz7, hz8, hz9, hz10]
    · simp (disch := omega) only [stepRows, hty, eq_self_iff_true, ite_true,
      ite_false, ite_self, ite_apply, ite_mem_diag, ite_mem_upper1,
      ite_mem_lower1, ite_mem_upper2, ite_mem_lower2, ite_mem_b, ite_yes,
      ite_no, matEntry_at_diag, matEntry_at_upper1, matEntry_at_lower1,
      matEntry_at_upper2, matEntry_at_lower2, setMatrixVal_diag_hit,
      setMatrixVal_diag_miss, setMatrixVal_upper1_hit, setMatrixVal_upper1_miss,
      setMatrixVal_lower1_hit, setMatrixVal_lower1_miss, setMatrixVal_upper2_hit,
      setMatrixVal_upper2_miss, setMatrixVal_lower2_hit, setMatrixVal_lower2_miss,
      setMatrixVal_b_vector, Function.update_same, Function.update_noteq,
      hz1, hz2, hz3, hz4, hz5, hz6, hz7, hz8, hz9, hz10]
    · simp (disch := omega) only [stepRows, hty, eq_self_iff_true, ite_true,
      ite_false, ite_self, ite_apply, ite_mem_diag, ite_mem_upper1,
      ite_mem_lower1, ite_mem_upper2, ite_mem_lower2, ite_mem_b, ite_yes,
      ite_no, matEntry_at_diag, matEntry_at_upper1, matEntry_at_lower1,
      matEntry_at_upper2, matEntry_at_lower2, setMatrixVal_diag_hit,
      setMatrixVal_diag_miss, setMatrixVal_upper1_hit, setMatrixVal_upper1_miss,
      setMatrixVal_lower1_hit, setMatrixVal_lower1_miss, setMatrixVal_upper2_hit,
      setMatrixVal_upper2_miss, setMatrixVal_lower2_hit, setMatrixVal_lower2_miss,
      setMatrixVal_b_vector, Function.update_same, Function.update_noteq,
      hz1, hz2, hz3, hz4, hz5, hz6, hz7, hz8, hz9, hz10]

/-- Row contents written by `stepRows` for a non-RC_GROUND node `i` into a
memory whose two rows are still clear: the KCL row is `2i+1`, the voltage
row is `2i`. -/
theorem stepRows_stencil_rl (dt : ℚ) (nodes : Nat → Node) (i : Nat) (M : Mem)
    (hty : ¬(nodes i).type = EType.RC_GROUND) (hiN : i < M.N_nodes)
    (hz1 : M.diag (2 * (i : ℤ)) = 0) (hz2 : M.upper1 (2 * (i : ℤ)) = 0)
    (hz3 : M.lower1 (2 * (i : ℤ)) = 0) (hz4 : M.upper2 (2 * (i : ℤ)) = 0)
    (hz5 : M.lower2 (2 * (i : ℤ)) = 0)
    (hz6 : M.diag (2 * (i : ℤ) + 1) = 0) (hz7 : M.upper1 (2 * (i : ℤ) + 1) = 0)
    (hz8 : M.lower1 (2 * (i : ℤ) + 1) = 0) (hz9 : M.upper2 (2 * (i : ℤ) + 1) = 0)
    (hz10 : M.lower2 (2 * (i : ℤ) + 1) = 0) :
    matEntry (stepRows dt nodes i M) (2 * (i : ℤ) + 1) (2 * (i : ℤ)) =
      THETA * (nodes i).G + (nodes i).C / dt ∧
    matEntry (stepRows dt nodes i M) (2 * (i : ℤ) + 1) (2 * (i : ℤ) + 1) = THETA ∧
    (0 < i →
      matEntry (stepRows dt nodes i M) (2 * (i : ℤ) + 1) (2 * (i : ℤ) - 1) =
        -THETA) ∧
    (stepRows dt nodes i M).b_vector (2 * (i : ℤ) + 1) =
      (1 - THETA) * ((if 0 < i then M.I_old (i - 1) else 0) - M.I_old i)
        + ((nodes i).C / dt - (1 - THETA) * (nodes i).G) * M.V_old i ∧
    (i = M.N_nodes - 1 →
      (∀ c : ℤ, matEntry (stepRows dt nodes i M) (2 * (i : ℤ)) c =
        if c = 2 * (i : ℤ) + 1 then 1 else 0) ∧
      (stepRows dt nodes i M).b_vector (2 * (i : ℤ)) = 0) ∧
    (i ≠ M.N_nodes - 1 →
      matEntry (stepRows dt nodes i M) (2 * (i : ℤ)) (2 * (i : ℤ)) = THETA ∧
      matEntry (stepRows dt nodes i M) (2 * (i : ℤ)) (2 * (i : ℤ) + 1) =
        -(THETA * (nodes i).R + (nodes i).L / dt) ∧
      matEntry (stepRows dt nodes i M) (2 * (i : ℤ)) (2 * (i : ℤ) + 2) =
        -THETA ∧
      (stepRows dt nodes i M).b_vector (2 * (i : ℤ)) =
        (1 - THETA) * (M.V_old (i + 1) - M.V_old i)
          - ((nodes i).L / dt - (1 - THETA) * (nodes i).R) * M.I_old i) := by
  refine ⟨?_, ?_, fun h0 => ?_, ?_, fun hL => ?_, fun hNL => ?_⟩
  · simp (disch := omega) only [stepRows, hty, eq_self_iff_true, ite_true,
      ite_false, ite_self, ite_apply, ite_mem_diag, ite_mem_upper1,
      ite_mem_lower1, ite_mem_upper2, ite_mem_lower2, ite_mem_b, ite_yes,
      ite_no, matEntry_at_diag, matEntry_at_upper1, matEntry_at_lower1,
      matEntry_at_upper2, matEntry_at_lower2, setMatrixVal_diag_hit,
      setMatrixVal_diag_miss, setMatrixVal_upper1_hit, setMatrixVal_upper1_miss,
      setMatrixVal_lower1_hit, setMatrixVal_lower1_miss, setMatrixVal_upper2_hit,
      setMatrixVal_upper2_miss, setMatrixVal_lower2_hit, setMatrixVal_lower2_miss,
      setMatrixVal_b_vector, Function.update_same, Function.update_noteq,
      hz1, hz2, hz3, hz4, hz5, hz6, hz7, hz8, hz9, hz10]
  · simp (disch := omega) only [stepRows, hty, eq_self_iff_true, ite_true,
      ite_false, ite_self, ite_apply, ite_mem_diag, ite_mem_upper1,
      ite_mem_lower1, ite_mem_upper2, ite_mem_lower2, ite_mem_b, ite_yes,
      ite_no, matEntry_at_diag, matEntry_at_upper1, matEntry_at_lower1,
      matEntry_at_upper2, matEntry_at_lower2, setMatrixVal_diag_hit,
      setMatrixVal_diag_miss, setMatrixVal_upper1_hit, setMatrixVal_upper1_miss,
      setMatrixVal_lower1_hit, setMatrixVal_lower1_miss, setMatrixVal_upper2_hit,
      setMatrixVal_upper2_miss, setMatrixVal_lower2_hit, setMatrixVal_lower2_miss,
      setMatrixVal_b_vector, Function.update_same, Function.update_noteq,
      hz1, hz2, hz3, hz4, hz5, hz6, hz7, hz8, hz9, hz10]
  · simp (disch := omega) only [stepRows, hty, eq_self_iff_true, ite_true,
      ite_false, ite_self, ite_apply, ite_mem_diag, ite_mem_upper1,
      ite_mem_lower1, ite_mem_upper2, ite_mem_lower2, ite_mem_b, ite_yes,
      ite_no, matEntry_at_diag, matEntry_at_upper1, matEntry_at_lower1,
      matEntry_at_upper2, matEntry_at_lower2, setMatrixVal_diag_hit,
      setMatrixVal_diag_miss, setMatrixVal_upper1_hit, setMatrixVal_upper1_miss,
      setMatrixVal_lower1_hit, setMatrixVal_lower1_miss, setMatrixVal_upper2_hit,
      setMatrixVal_upper2_miss, setMatrixVal_lower2_hit, setMatrixVal_lower2_miss,
      setMatrixVal_b_vector, Function.update_same, Function.update_noteq,
      hz1, hz2, hz3, hz4, hz5, hz6, hz7, hz8, hz9, hz10]
  · simp (disch := omega) only [stepRows, hty, eq_self_iff_true, ite_true,
      ite_false, ite_self, ite_apply, ite_mem_diag, ite_mem_upper1,
      ite_mem_lower1, ite_mem_upper2, ite_mem_lower2, ite_mem_b, ite_yes,
      ite_no, matEntry_at_diag, matEntry_at_upper1, matEntry_at_lower1,
      matEntry_at_upper2, matEntry_at_lower2, setMatrixVal_diag_hit,
      setMatrixVal_diag_miss, setMatrixVal_upper1_hit, setMatrixVal_upper1_miss,
      setMatrixVal_lower1_hit, setMatrixVal_lower1_miss, setMatrixVal_upper2_hit,
      setMatrixVal_upper2_miss, setMatrixVal_lower2_hit, setMatrixVal_lower2_miss,
      setMatrixVal_b_vector, Function.update_same, Function.update_noteq,
      hz1, hz2, hz3, hz4, hz5, hz6, hz7, hz8, hz9, hz10]
  · refine ⟨fun c => ?_, ?_⟩
    ·
      have hdiag : (stepRows dt nodes i M).diag (2 * (i : ℤ)) = 0 := by
        simp (disch := omega) only [stepRows, hty, eq_self_iff_true, ite_true,
              ite_false, ite_self, ite_apply, ite_mem_diag, ite_mem_upper1,
              ite_mem_lower1, ite_mem_upper2, ite_mem_lower2, ite_mem_b, ite_yes,
              ite_no, matEntry_at_diag, matEntry_at_upper1, matEntry_at_lower1,
              matEntry_at_upper2, matEntry_at_lower2, setMatrixVal_diag_hit,
              setMatrixVal_diag_miss, setMatrixVal_upper1_hit, setMatrixVal_upper1_miss,
              setMatrixVal_lower1_hit, setMatrixVal_lower1_miss, setMatrixVal_upper2_hit,
              setMatrixVal_upper2_miss, setMatrixVal_lower2_hit, setMatrixVal_lower2_miss,
              setMatrixVal_b_vector, Function.update_same, Function.update_noteq,
              hz1, hz2, hz3, hz4, hz5, hz6, hz7, hz8, hz9, hz10]
      have hupper1 : (stepRows dt nodes i M).upper1 (2 * (i : ℤ)) = 1 := by
        simp (disch := omega) only [stepRows, hty, eq_self_iff_true, ite_true,
              ite_false, ite_self, ite_apply, ite_mem_diag, ite_mem_upper1,
              ite_mem_lower1, ite_mem_upper2, ite_mem_lower2, ite_mem_b, ite_yes,
              ite_no, matEntry_at_diag, matEntry_at_upper1, matEntry_at_lower1,
              matEntry_at_upper2, matEntry_at_lower2, setMatrixVal_diag_hit,
              setMatrixVal_diag_miss, setMatrixVal_upper1_hit, setMatrixVal_upper1_miss,
              setMatrixVal_lower1_hit, setMatrixVal_lower1_miss, setMatrixVal_upper2_hit,
              setMatrixVal_upper2_miss, setMatrixVal_lower2_hit, setMatrixVal_lower2_miss,
              setMatrixVal_b_vector, Function.update_same, Function.update_noteq,
              hz1, hz2, hz3, hz4, hz5, hz6, hz7, hz8, hz9, hz10]
      have hlower1 : (stepRows dt nodes i M).lower1 (2 * (i : ℤ)) = 0 := by
        simp (disch := omega) only [stepRows, hty, eq_self_iff_true, ite_true,
              ite_false, ite_self, ite_apply, ite_mem_diag, ite_mem_upper1,
              ite_mem_lower1, ite_mem_upper2, ite_mem_lower2, ite_mem_b, ite_yes,
              ite_no, matEntry_at_diag, matEntry_at_upper1, matEntry_at_lower1,
              matEntry_at_upper2, matEntry_at_lower2, setMatrixVal_diag_hit,
              setMatrixVal_diag_miss, setMatrixVal_upper1_hit, setMatrixVal_upper1_miss,
              setMatrixVal_lower1_hit, setMatrixVal_lower1_miss, setMatrixVal_upper2_hit,
              setMatrixVal_upper2_miss, setMatrixVal_lower2_hit, setMatrixVal_lower2_miss,
              setMatrixVal_b_vector, Function.update_same, Function.update_noteq,
              hz1, hz2, hz3, hz4, hz5, hz6, hz7, hz8, hz9, hz10]
      have hupper2 : (stepRows dt nodes i M).upper2 (2 * (i : ℤ)) = 0 := by
        simp (disch := omega) only [stepRows, hty, eq_self_iff_true, ite_true,
              ite_false, ite_self, ite_apply, ite_mem_diag, ite_mem_upper1,
              ite_mem_lower1, ite_mem_upper2, ite_mem_lower2, ite_mem_b, ite_yes,
              ite_no, matEntry_at_diag, matEntry_at_upper1, matEntry_at_lower1,
              matEntry_at_upper2, matEntry_at_lower2, setMatrixVal_diag_hit,
              setMatrixVal_diag_miss, setMatrixVal_upper1_hit, setMatrixVal_upper1_miss,
              setMatrixVal_lower1_hit, setMatrixVal_lower1_miss, setMatrixVal_upper2_hit,
              setMatrixVal_upper2_miss, setMatrixVal_lower2_hit, setMatrixVal_lower2_miss,
              setMatrixVal_b_vector, Function.update_same, Function.update_noteq,
              hz1, hz2, hz3, hz4, hz5, hz6, hz7, hz8, hz9, hz10]
      have hlower2 : (stepRows dt nodes i M).lower2 (2 * (i : ℤ)) = 0 := by
        simp (disch := omega) only [stepRows, hty, eq_self_iff_true, ite_true,
              ite_false, ite_self, ite_apply, ite_mem_diag, ite_mem_upper1,
              ite_mem_lower1, ite_mem_upper2, ite_mem_lower2, ite_mem_b, ite_yes,
              ite_no, matEntry_at_diag, matEntry_at_upper1, matEntry_at_lower1,
              matEntry_at_upper2, matEntry_at_lower2, setMatrixVal_diag_hit,
              setMatrixVal_diag_miss, setMatrixVal_upper1_hit, setMatrixVal_upper1_miss,
              setMatrixVal_lower1_hit, setMatrixVal_lower1_miss, setMatrixVal_upper2_hit,
              setMatrixVal_upper2_miss, setMatrixVal_lower2_hit, setMatrixVal_lower2_miss,
              setMatrixVal_b_vector, Function.update_same, Function.update_noteq,
              hz1, hz2, hz3, hz4, hz5, hz6, hz7, hz8, hz9, hz10]
      rw [matEntry_row_cases, hdiag, hupper1, hlower1, hupper2, hlower2]
      split_ifs <;> first | rfl | omega
    · simp (disch := omega) only [stepRows, hty, eq_self_iff_true, ite_true,
      ite_false, ite_self, ite_apply, ite_mem_diag, ite_mem_upper1,
      ite_mem_lower1, ite_mem_upper2, ite_mem_lower2, ite_mem_b, ite_yes,
      ite_no, matEntry_at_diag, matEntry_at_upper1, matEntry_at_lower1,
      matEntry_at_upper2, matEntry_at_lower2, setMatrixVal_diag_hit,
      setMatrixVal_diag_miss, setMatrixVal_upper1_hit, setMatrixVal_upper1_miss,
      setMatrixVal_lower1_hit, setMatrixVal_lower1_miss, setMatrixVal_upper2_hit,
      setMatrixVal_upper2_miss, setMatrixVal_lower2_hit, setMatrixVal_lower2_miss,
      setMatrixVal_b_vector, Function.update_same, Function.update_noteq,
      hz1, hz2, hz3, hz4, hz5, hz6, hz7, hz8, hz9, hz10]
  · refine ⟨?_, ?_, ?_, ?_⟩
    · simp (disch := omega) only [stepRows, hty, eq_self_iff_true, ite_true,
      ite_false, ite_self, ite_apply, ite_mem_diag, ite_mem_upper1,
      ite_mem_lower1, ite_mem_upper2, ite_mem_lower2, ite_mem_b, ite_yes,
      ite_no, matEntry_at_diag, matEntry_at_upper1, matEntry_at_lower1,
      matEntry_at_upper2, matEntry_at_lower2, setMatrixVal_diag_hit,
      setMatrixVal_diag_miss, setMatrixVal_upper1_hit, setMatrixVal_upper1_miss,
      setMatrixVal_lower1_hit, setMatrixVal_lower1_miss, setMatrixVal_upper2_hit,
      setMatrixVal_upper2_miss, setMatrixVal_lower2_hit, setMatrixVal_lower2_miss,
      setMatrixVal_b_vector, Function.update_same, Function.update_noteq,
      hz1, hz2, hz3, hz4, hz5, hz6, hz7, hz8, hz9, hz10]
    · simp (disch := omega) only [stepRows, hty, eq_self_iff_true, ite_true,
      ite_false, ite_self, ite_apply, ite_mem_diag, ite_mem_upper1,
      ite_mem_lower1, ite_mem_upper2, ite_mem_lower2, ite_mem_b, ite_yes,
      ite_no, matEntry_at_diag, matEntry_at_upper1, matEntry_at_lower1,
      matEntry_at_upper2, matEntry_at_lower2, setMatrixVal_diag_hit,
      setMatrixVal_diag_miss, setMatrixVal_upper1_hit, setMatrixVal_upper1_miss,
      setMatrixVal_lower1_hit, setMatrixVal_lower1_miss, setMatrixVal_upper2_hit,
      setMatrixVal_upper2_miss, setMatrixVal_lower2_hit, setMatrixVal_lower2_miss,
      setMatrixVal_b_vector, Function.update_same, Function.update_noteq,
      hz1, hz2, hz3, hz4, hz5, hz6, hz7, hz8, hz9, hz10]
    · simp (disch := omega) only [stepRows, hty, eq_self_iff_true, ite_true,
      ite_false, ite_self, ite_apply, ite_mem_diag, ite_mem_upper1,
      ite_mem_lower1, ite_mem_upper2, ite_mem_lower2, ite_mem_b, ite_yes,
      ite_no, matEntry_at_diag, matEntry_at_upper1, matEntry_at_lower1,
      matEntry_at_upper2, matEntry_at_lower2, setMatrixVal_diag_hit,
      setMatrixVal_diag_miss, setMatrixVal_upper1_hit, setMatrixVal_upper1_miss,
      setMatrixVal_lower1_hit, setMatrixVal_lower1_miss, setMatrixVal_upper2_hit,
      setMatrixVal_upper2_miss, setMatrixVal_lower2_hit, setMatrixVal_lower2_miss,
      setMatrixVal_b_vector, Function.update_same, Function.update_noteq,
      hz1, hz2, hz3, hz4, hz5, hz6, hz7, hz8, hz9, hz10]
    · simp (disch := omega) only [stepRows, hty, eq_self_iff_true, ite_true,
      ite_false, ite_self, ite_apply, ite_mem_diag, ite_mem_upper1,
      ite_mem_lower1, ite_mem_upper2, ite_mem_lower2, ite_mem_b, ite_yes,
      ite_no, matEntry_at_diag, matEntry_at_upper1, matEntry_at_lower1,
      matEntry_at_upper2, matEntry_at_lower2, setMatrixVal_diag_hit,
      setMatrixVal_diag_miss, setMatrixVal_upper1_hit, setMatrixVal_upper1_miss,
      setMatrixVal_lower1_hit, setMatrixVal_lower1_miss, setMatrixVal_upper2_hit,
      setMatrixVal_upper2_miss, setMatrixVal_lower2_hit, setMatrixVal_lower2_miss,
      setMatrixVal_b_vector, Function.update_same, Function.update_noteq,
      hz1, hz2, hz3, hz4, hz5, hz6, hz7, hz8, hz9, hz10]

/-- Two memories agreeing bandwise on a row have the same entries there. -/
theorem matEntry_congr_row {m m' : Mem} {row : ℤ}
    (h1 : m.diag row = m'.diag row) (h2 : m.upper1 row = m'.upper1 row)
    (h3 : m.lower1 row = m'.lower1 row) (h4 : m.upper2 row = m'.upper2 row)
    (h5 : m.lower2 row = m'.lower2 row) :
    ∀ col, matEntry m row col = matEntry m' row col := by
  intro col
  rw [matEntry_row_cases, matEntry_row_cases, h1, h2, h3, h4, h5]

/-- C1: the per-timestep assembly stencil of `Solver.step`.  With
`rV, rI` chosen by the RC_GROUND row swap, the KCL row `rI` of node `i`
holds `AV = θ·G + C/dt` at column `2i`, `+θ` at `2i+1` and `-θ` at `2i-1`
when `i > 0`, with RHS
`(1-θ)·(I_old[i-1] - I_old[i]) + (C/dt - (1-θ)·G)·V_old[i]`
(`I_old[-1]` read as 0); the voltage row `rV` of the last node holds
exactly `+1` at column `2i+1` with RHS 0, and otherwise `+θ` at `2i`,
`-AI = -(θ·R + L/dt)` at `2i+1`, `-θ` at `2i+2`, with RHS
`(1-θ)·(V_old[i+1] - V_old[i]) - (L/dt - (1-θ)·R)·I_old[i]`. -/
theorem step_assembly_stencil (dt : ℚ) (nodes : Nat → Node) (m : Mem) (i : Nat)
    (hi : i < m.N_nodes) (rV rI : ℤ)
    (hrV : rV = if (nodes i).type = EType.RC_GROUND then 2 * (i : ℤ) + 1
      else 2 * (i : ℤ))
    (hrI : rI = if (nodes i).type = EType.RC_GROUND then 2 * (i : ℤ)
      else 2 * (i : ℤ) + 1) :
    matEntry (populateMatrix dt nodes m) rI (2 * (i : ℤ)) =
      THETA * (nodes i).G + (nodes i).C / dt ∧
    matEntry (populateMatrix dt nodes m) rI (2 * (i : ℤ) + 1) = THETA ∧
    (0 < i →
      matEntry (populateMatrix dt nodes m) rI (2 * (i : ℤ) - 1) = -THETA) ∧
    (populateMatrix dt nodes m).b_vector rI =
      (1 - THETA) * ((if 0 < i then m.I_old (i - 1) else 0) - m.I_old i)
        + ((nodes i).C / dt - (1 - THETA) * (nodes i).G) * m.V_old i ∧
    (i = m.N_nodes - 1 →
      (∀ c : ℤ, matEntry (populateMatrix dt nodes m) rV c =
        if c = 2 * (i : ℤ) + 1 then 1 else 0) ∧
      (populateMatrix dt nodes m).b_vector rV = 0) ∧
    (i ≠ m.N_nodes - 1 →
      matEntry (populateMatrix dt nodes m) rV (2 * (i : ℤ)) = THETA ∧
      matEntry (populateMatrix dt nodes m) rV (2 * (i : ℤ) + 1) =
        -(THETA * (nodes i).R + (nodes i).L / dt) ∧
      matEntry (populateMatrix dt nodes m) rV (2 * (i : ℤ) + 2) = -THETA ∧
      (populateMatrix dt nodes m).b_vector rV =
        (1 - THETA) * (m.V_old (i + 1) - m.V_old i)
          - ((nodes i).L / dt - (1 - THETA) * (nodes i).R) * m.I_old i) := by
  subst hrV hrI
  have hMN : (populateUpTo dt nodes m.clearMatrix i).N_nodes = m.N_nodes :=
    (populateUpTo_state dt nodes m.clearMatrix i).2.2
  have hMV : (populateUpTo dt nodes m.clearMatrix i).V_old = m.V_old :=
    (populateUpTo_state dt nodes m.clearMatrix i).1
  have hMI : (populateUpTo dt nodes m.clearMatrix i).I_old = m.I_old :=
    (populateUpTo_state dt nodes m.clearMatrix i).2.1
  have hz0 := populateUpTo_bands_untouched dt nodes m.clearMatrix (2 * (i : ℤ)) i
    (fun k hk => ⟨by omega, by omega⟩)
  have hz1 := populateUpTo_bands_untouched dt nodes m.clearMatrix
    (2 * (i : ℤ) + 1) i (fun k hk => ⟨by omega, by omega⟩)
  have htr0 := populateUpTo_bands_ge dt nodes m.clearMatrix i (2 * (i : ℤ))
    (Or.inl rfl) m.N_nodes (by omega)
  have htr1 := populateUpTo_bands_ge dt nodes m.clearMatrix i (2 * (i : ℤ) + 1)
    (Or.inr rfl) m.N_nodes (by omega)
  have hrow0 : ∀ col, matEntry (populateMatrix dt nodes m) (2 * (i : ℤ)) col =
      matEntry (stepRows dt nodes i (populateUpTo dt nodes m.clearMatrix i))
        (2 * (i : ℤ)) col :=
    matEntry_congr_row htr0.1 htr0.2.1 htr0.2.2.1 htr0.2.2.2.1 htr0.2.2.2.2.1
  have hrow1 : ∀ col, matEntry (populateMatrix dt nodes m) (2 * (i : ℤ) + 1) col =
      matEntry (stepRows dt nodes i (populateUpTo dt nodes m.clearMatrix i))
        (2 * (i : ℤ) + 1) col :=
    matEntry_congr_row htr1.1 htr1.2.1 htr1.2.2.1 htr1.2.2.2.1 htr1.2.2.2.2.1
  have hb0 : (populateMatrix dt nodes m).b_vector (2 * (i : ℤ)) =
      (stepRows dt nodes i (populateUpTo dt nodes m.clearMatrix i)).b_vector
        (2 * (i : ℤ)) := htr0.2.2.2.2.2
  have hb1 : (populateMatrix dt nodes m).b_vector (2 * (i : ℤ) + 1) =
      (stepRows dt nodes i (populateUpTo dt nodes m.clearMatrix i)).b_vector
        (2 * (i : ℤ) + 1) := htr1.2.2.2.2.2
  by_cases hty : (nodes i).type = EType.RC_GROUND
  · obtain ⟨c1, c2, c3, c4, c5, c6⟩ :=
      stepRows_stencil_rc dt nodes i (populateUpTo dt nodes m.clearMatrix i) hty
        (by omega) (hz0.1.trans rfl) (hz0.2.1.trans rfl) (hz0.2.2.1.trans rfl)
        (hz0.2.2.2.1.trans rfl) (hz0.2.2.2.2.1.trans rfl) (hz1.1.trans rfl)
        (hz1.2.1.trans rfl) (hz1.2.2.1.trans rfl) (hz1.2.2.2.1.trans rfl)
        (hz1.2.2.2.2.1.trans rfl)
    refine ⟨?_, ?_, ?_, ?_, ?_, ?_⟩
    · simp only [hty, ite_true, eq_self_iff_true]
      rw [hrow0]
      exact c1
    · simp only [hty, ite_true, eq_self_iff_true]
      rw [hrow0]
      exact c2
    · intro h0
      simp only [hty, ite_true, eq_self_iff_true]
      rw [hrow0]
      exact c3 h0
    · simp only [hty, ite_true, eq_self_iff_true]
      rw [hb0, c4, hMV, hMI]
    · intro hL
      obtain ⟨d1, d2⟩ := c5 (by omega)
      constructor
      · intro c
        simp only [hty, ite_true, eq_self_iff_true]
        rw [hrow1]
        exact d1 c
      · simp only [hty, ite_true, eq_self_iff_true]
        rw [hb1]
        exact d2
    · intro hNL
      obtain ⟨d1, d2, d3, d4⟩ := c6 (by omega)
      refine ⟨?_, ?_, ?_, ?_⟩
      · simp only [hty, ite_true, eq_self_iff_true]
        rw [hrow1]
        exact d1
      · simp only [hty, ite_true, eq_self_iff_true]
        rw [hrow1]
        exact d2
      · simp only [hty, ite_true, eq_self_iff_true]
        rw [hrow1]
        exact d3
      · simp only [hty, ite_true, eq_self_iff_true]
        rw [hb1, d4, hMV, hMI]
  · obtain ⟨c1, c2, c3, c4, c5, c6⟩ :=
      stepRows_stencil_rl dt nodes i (populateUpTo dt nodes m.clearMatrix i) hty
        (by omega) (hz0.1.trans rfl) (hz0.2.1.trans rfl) (hz0.2.2.1.trans rfl)
        (hz0.2.2.2.1.trans rfl) (hz0.2.2.2.2.1.trans rfl) (hz1.1.trans rfl)
        (hz1.2.1.trans rfl) (hz1.2.2.1.trans rfl) (hz1.2.2.2.1.trans rfl)
        (hz1.2.2.2.2.1.trans rfl)
    refine ⟨?_, ?_, ?_, ?_, ?_, ?_⟩
    · simp only [hty, ite_false, if_false, eq_self_iff_true]
      rw [hrow1]
      exact c1
    · simp only [hty, ite_false, if_false, eq_self_iff_true]
      rw [hrow1]
      exact c2
    · intro h0
      simp only [hty, ite_false, if_false, eq_self_iff_true]
      rw [hrow1]
      exact c3 h0
    · simp only [hty, ite_false, if_false, eq_self_iff_true]
      rw [hb1, c4, hMV, hMI]
    · intro hL
      obtain ⟨d1, d2⟩ := c5 (by omega)
      constructor
      · intro c
        simp only [hty, ite_false, if_false, eq_self_iff_true]
        rw [hrow0]
        exact d1 c
      · simp only [hty, ite_false, if_false, eq_self_iff_true]
        rw [hb0]
        exact d2
    · intro hNL
      obtain ⟨d1, d2, d3, d4⟩ := c6 (by omega)
      refine ⟨?_, ?_, ?_, ?_⟩
      · simp only [hty, ite_false, if_false, eq_self_iff_true]
        rw [hrow0]
        exact d1
      · simp only [hty, ite_false, if_false, eq_self_iff_true]
        rw [hrow0]
        exact d2
      · simp only [hty, ite_false, if_false, eq_self_iff_true]
        rw [hrow0]
        exact d3
      · simp only [hty, ite_false, if_false, eq_self_iff_true]
        rw [hb0, d4, hMV, hMI]

/-- Concrete instance of the C1 stencil theorem: for a fresh two-node memory
and an RL node, row `rI = 1` of node 0 carries `+θ` at column `2·0+1`. -/
theorem step_assembly_stencil_witness :
    0 < (newMemory 2).N_nodes ∧
    ((0 : ℤ) = if anchorNodeW.type = EType.RC_GROUND then 2 * ((0 : Nat) : ℤ) + 1
      else 2 * ((0 : Nat) : ℤ)) ∧
    ((1 : ℤ) = if anchorNodeW.type = EType.RC_GROUND then 2 * ((0 : Nat) : ℤ)
      else 2 * ((0 : Nat) : ℤ) + 1) ∧
    matEntry (populateMatrix 1 (fun _ => anchorNodeW) (newMemory 2)) 1
      (2 * ((0 : Nat) : ℤ) + 1) = THETA :=
  ⟨by decide, rfl, rfl,
    (step_assembly_stencil 1 (fun _ => anchorNodeW) (newMemory 2) 0 (by decide)
      0 1 rfl rfl).2.1⟩

end WebScreamer
